import Mathlib

/-!
Verification development for the UPS_Server_Docker power manager
(`src/app/power_manager.py`).

The Python module is shallowly embedded below.  Conventions:

* Python dictionaries keyed by strings become association lists
  (`List (String × α)`) with insertion-order semantics: `aset` replaces the
  first binding in place or appends, `aget?` returns the first binding, so
  after construction through `aset` keys are unique and lookups agree with
  Python dict semantics.
* Wall-clock time is a record of the pre-formatted values the source reads
  (`%Y-%m-%d` date, `%H:%M` minute, lowercase `%A` day name, unix seconds).
  Python compares the formatted strings lexicographically, which matches
  Lean's `String` order.
* The configuration file is a list of text lines (each line is the content
  without its trailing newline); keys and values containing a newline are
  outside the model and excluded by hypotheses where relevant.
* Network effects (ping results, email delivery, wakeonlan exit status) are
  oracles `String → Bool` supplied by the environment.  A ping timeout or
  OSError is observationally "unreachable", an email exception is
  "delivery returned false".
* Timestamps are `Int` (unix seconds), so differences behave like Python's.
-/

namespace UPS

/-- Association-list lookup: first binding wins (Python dict lookup, given
the unique-keys invariant maintained by `aset`). -/
def aget? {α : Type} (l : List (String × α)) (k : String) : Option α :=
  (l.find? (fun p => p.1 == k)).map (·.2)

/-- Association-list update: replace the first binding in place, append if
absent (Python `d[k] = v` insertion-order semantics). -/
def aset {α : Type} : List (String × α) → String → α → List (String × α)
  | [], k, v => [(k, v)]
  | (k', v') :: t, k, v =>
    if k' == k then (k, v) :: t else (k', v') :: aset t k v

/-- Key-presence test (Python `k in d`). -/
def acontains {α : Type} (l : List (String × α)) (k : String) : Bool :=
  (aget? l k).isSome

/-- Remove a key (Python `del d[k]`). -/
def aerase {α : Type} (l : List (String × α)) (k : String) : List (String × α) :=
  l.filter (fun p => p.1 != k)

/-- String-valued configuration dictionary. -/
abbrev Dict := List (String × String)

/-- Python `d.get(k, dflt)`. -/
def dgetD (d : Dict) (k dflt : String) : String := (aget? d k).getD dflt

/-- Python whitespace test used by `str.strip()` / `str.split()`. -/
def isWs (c : Char) : Bool := c.isWhitespace

/-- Python `str.lstrip(chars)` over the character predicate `p`. -/
def pyLStrip (p : Char → Bool) (l : List Char) : List Char := l.dropWhile p

/-- Python `str.rstrip(chars)` over the character predicate `p`. -/
def pyRStrip (p : Char → Bool) (l : List Char) : List Char :=
  (l.reverse.dropWhile p).reverse

/-- Python `str.strip(chars)` over the character predicate `p`. -/
def pyStripChars (p : Char → Bool) (s : String) : String :=
  ⟨pyRStrip p (pyLStrip p s.data)⟩

/-- Python `str.strip()` (whitespace both ends). -/
def pyStrip (s : String) : String := pyStripChars isWs s

/-- The quote characters stripped from config values (`strip('"\'')`). -/
def isQuoteChar (c : Char) : Bool := c == '"' || c == '\''

/-- The parser's value normalisation: `value.strip().strip('"\'').strip()`
(`read_power_manager_config`, src/app/power_manager.py line 107). -/
def cleanValue (v : String) : String :=
  pyStrip (pyStripChars isQuoteChar (pyStrip v))

/-- Python `s.startswith(c)` for a single-character needle. -/
def startsWithChar (s : String) (c : Char) : Bool := s.data.head? == some c

/-- Python `s.endswith(c)` for a single-character needle. -/
def endsWithChar (s : String) (c : Char) : Bool := s.data.getLast? == some c

/-- Python `s.startswith(pre)` for a multi-character needle. -/
def startsWithStr (s pre : String) : Bool := pre.data.isPrefixOf s.data

/-- Split a character list at the first occurrence of `c`
(Python `s.split(c, 1)` when `c` occurs). -/
def splitFirstChar (c : Char) : List Char → Option (List Char × List Char)
  | [] => none
  | a :: as =>
    if a == c then some ([], as)
    else (splitFirstChar c as).map (fun pr => (a :: pr.1, pr.2))

/-- Python `line.split('=', 1)` guarded by `'=' in line`: `none` when no
`'='` occurs.  The first component also equals `line.split('=')[0]`. -/
def splitEq (s : String) : Option (String × String) :=
  (splitFirstChar '=' s.data).map (fun pr => (⟨pr.1⟩, ⟨pr.2⟩))

/-- Python `line[1:-1]` (used to extract a `[SECTION]` name). -/
def headerName (s : String) : String := ⟨(s.data.drop 1).dropLast⟩

/-- Parser state while scanning a config file
(`read_power_manager_config`). -/
structure ParseState where
  config : Dict
  wake_hosts : List (String × Dict)
  schedules : List (String × Dict)
  cur : Option String
deriving DecidableEq

/-- The empty parse state (`config = {}`, no current section). -/
def initParseState : ParseState :=
  { config := [], wake_hosts := [], schedules := [], cur := none }

/-- Assign `k := v` inside the named section of a section map
(`wake_hosts[current_section][key] = value`). -/
def assignIn (l : List (String × Dict)) (sec k v : String) :
    List (String × Dict) :=
  aset l sec (aset ((aget? l sec).getD []) k v)

/-- One line of `read_power_manager_config` (src/app/power_manager.py
lines 84-118): strip, skip blanks and comments, open `[WAKE_HOST_*]` /
`[SCHEDULE_*]` sections (any other header resets to global scope, and a
repeated header resets that section's map to empty), and assign
`KEY=VALUE` pairs into the current scope with quote-stripped values. -/
def parse_config_line (st : ParseState) (raw : String) : ParseState :=
  let line := pyStrip raw
  if line == "" || startsWithChar line '#' then st
  else if startsWithChar line '[' && endsWithChar line ']' then
    let sec := headerName line
    if startsWithStr sec "WAKE_HOST_" then
      { st with wake_hosts := aset st.wake_hosts sec [], cur := some sec }
    else if startsWithStr sec "SCHEDULE_" then
      { st with schedules := aset st.schedules sec [], cur := some sec }
    else { st with cur := none }
  else
    match splitEq line with
    | none => st
    | some (k0, v0) =>
      let k := pyStrip k0
      let v := cleanValue v0
      match st.cur with
      | some sec =>
        if startsWithStr sec "WAKE_HOST_" then
          { st with wake_hosts := assignIn st.wake_hosts sec k v }
        else if startsWithStr sec "SCHEDULE_" then
          { st with schedules := assignIn st.schedules sec k v }
        else st
      | none => { st with config := aset st.config k v }

/-- `read_power_manager_config` over the file's lines. -/
def read_power_manager_config (lines : List String) : ParseState :=
  lines.foldl parse_config_line initParseState

/-- Writer state while rewriting the config file
(`save_setting_to_config`). -/
structure SaveState where
  out : List String
  inCorrect : Bool
  keyFound : Bool
deriving DecidableEq

/-- Leading-whitespace width of a line (`len(line) - len(line.lstrip())`). -/
def indentOf (line : String) : Nat := (line.data.takeWhile isWs).length

/-- The replacement line written for an updated key:
`' ' * indent + f'{key}="{value}"'`. -/
def keyLine (indent : Nat) (key value : String) : String :=
  ⟨List.replicate indent ' '⟩ ++ key ++ "=\"" ++ value ++ "\""

/-- One line of the `save_setting_to_config` read-modify-write loop
(src/app/power_manager.py lines 141-161): headers toggle whether we are in
the requested section, a matching `KEY=...` line in the right section is
rewritten with the new quoted value, everything else is copied verbatim. -/
def save_line_step (key value : String) (sect : Option String)
    (st : SaveState) (line : String) : SaveState :=
  let stripped := pyStrip line
  if startsWithChar stripped '[' && endsWithChar stripped ']' then
    { st with out := st.out ++ [line],
              inCorrect := some (headerName stripped) == sect }
  else if st.inCorrect && !(startsWithChar stripped '#') then
    match splitEq stripped with
    | some (k0, _) =>
      if pyStrip k0 == key then
        { st with out := st.out ++ [keyLine (indentOf line) key value],
                  keyFound := true }
      else { st with out := st.out ++ [line] }
    | none => { st with out := st.out ++ [line] }
  else { st with out := st.out ++ [line] }

/-- `save_setting_to_config`: rewrite every line, then append the key (with
a fresh `[section]` header for a named section) when it was not found.  The
Python `f.write(f'\n[{section}]\n')` contributes an empty line plus a
header line in the line-list model (the file is assumed
newline-terminated). -/
def save_setting_to_config (lines : List String) (key value : String)
    (sect : Option String) : List String :=
  let st := lines.foldl (save_line_step key value sect)
    { out := [], inCorrect := sect.isNone, keyFound := false }
  if st.keyFound then st.out
  else
    match sect with
    | some sec => st.out ++ ["", "[" ++ sec ++ "]", keyLine 0 key value]
    | none => st.out ++ [keyLine 0 key value]

/-- Where a saved key is looked up on reload: the global config map for
`section=None`, the per-section map for a `WAKE_HOST_*` / `SCHEDULE_*`
section (the only section kinds `read_power_manager_config` keeps). -/
def scope_get (st : ParseState) (sect : Option String) (k : String) :
    Option String :=
  match sect with
  | none => aget? st.config k
  | some s =>
    if startsWithStr s "WAKE_HOST_" then
      aget? ((aget? st.wake_hosts s).getD []) k
    else if startsWithStr s "SCHEDULE_" then
      aget? ((aget? st.schedules s).getD []) k
    else none

/-- Python `str.lower()` for the ASCII values the config uses. -/
def pyToLower (s : String) : String := ⟨s.data.map Char.toLower⟩

/-- Python `str.upper()` for the ASCII category names. -/
def pyToUpper (s : String) : String := ⟨s.data.map Char.toUpper⟩

/-- Python string `<`: lexicographic comparison by code point. -/
def ltChars : List Char → List Char → Bool
  | [], [] => false
  | [], _ :: _ => true
  | _ :: _, [] => false
  | a :: as, b :: bs =>
    a.toNat < b.toNat || (a.toNat == b.toNat && ltChars as bs)

/-- Python `s < t` on strings. -/
def pyStrLt (s t : String) : Bool := ltChars s.data t.data

/-- Python `s <= t` on strings. -/
def pyStrLe (s t : String) : Bool := pyStrLt s t || s == t

/-- Python `str.split()` with no separator: split on whitespace runs,
discarding empty pieces. -/
def splitWsGo : List Char → List Char → List String
  | [], acc => if acc.isEmpty then [] else [⟨acc.reverse⟩]
  | c :: cs, acc =>
    if isWs c then
      if acc.isEmpty then splitWsGo cs []
      else ⟨acc.reverse⟩ :: splitWsGo cs []
    else splitWsGo cs (c :: acc)

/-- Python `ip.replace('.', '_')` (single-character needle). -/
def replaceDots (s : String) : String :=
  ⟨s.data.map (fun c => if c == '.' then '_' else c)⟩

/-- Python `int(s)` for plain decimal numerals with an optional sign
(the only shapes the configuration uses). -/
def parseDigits : List Char → Option Nat
  | [] => none
  | l => l.foldl (fun acc c =>
      match acc with
      | none => none
      | some n => if c.isDigit then some (n * 10 + (c.toNat - 48)) else none)
      (some 0)

/-- Python `int(s)` on a string: optional `+`/`-` then digits. -/
def pyToInt? (s : String) : Option Int :=
  match s.data with
  | '-' :: rest => (parseDigits rest).map (fun n => -(n : Int))
  | '+' :: rest => (parseDigits rest).map (fun n => (n : Int))
  | l => (parseDigits l).map (fun n => (n : Int))

/-- Wall-clock instant, holding the pre-formatted values the source reads:
`date = now.strftime('%Y-%m-%d')`, `hm = now.strftime('%H:%M')`,
`day = now.strftime('%A').lower()`, `ts = int(now.timestamp())`. -/
structure Clock where
  date : String
  hm : String
  day : String
  ts : Int
deriving DecidableEq

/-- Observable side effects of one engine cycle: an email delivery attempt
for a notification category, or a Wake-on-LAN packet to a MAC address. -/
inductive Event where
  | attempt (category subject : String)
  | wol (mac : String)
deriving DecidableEq

/-- A config flag in the `config.get(k, dflt).lower() == 'true'` idiom. -/
def cfg_flag (d : Dict) (k dflt : String) : Bool :=
  pyToLower (dgetD d k dflt) == "true"

/-- Python `int(config.get(k, dflt))`.  A present but non-numeric value
raises in the source (caught by the top-level handler); the model
substitutes the default there, and every theorem below exercises only
absent or numeric values. -/
def get_int_d (d : Dict) (k : String) (dflt : Int) : Int :=
  match aget? d k with
  | none => dflt
  | some s => (pyToInt? s).getD dflt

/-- `Notifier` enable check: `NOTIFY_<category-uppercased>` must be the
string `true` (case-insensitively). -/
def notify_enabled (cfg : Dict) (nty : String) : Bool :=
  cfg_flag cfg ("NOTIFY_" ++ pyToUpper nty) "false"

/-- `Notifier._get_debounce_timestamp`: first recorded timestamp for the
category in the debounce file. -/
def get_debounce (deb : List (String × Int)) (nty : String) : Option Int :=
  aget? deb nty

/-- `Notifier._set_debounce_timestamp`: drop the category's lines and
append a fresh `<category>_LAST_SENT=<now>` line. -/
def set_debounce (deb : List (String × Int)) (nty : String) (ts : Int) :
    List (String × Int) :=
  (deb.filter (fun p => p.1 != nty)) ++ [(nty, ts)]

/-- `Notifier.send` (src/app/power_manager.py lines 181-203).  Skips when
the category is disabled; for `APP_ERROR` skips when debounced (last send
within 3600 s) and otherwise records the debounce timestamp *before* the
delivery attempt; a failed delivery for any other category recursively
sends an `APP_ERROR` notification.  `deliver` is the email-transport
oracle keyed by subject (`true` = sent, `false` = exception).  Returns the
updated debounce file and the delivery attempts made.  Lean's termination
checker accepts the recursion precisely because the recursive call fixes
the category to `APP_ERROR`, whose own failure branch does not recurse. -/
def notifier_send (cfg : Dict) (deliver : String → Bool) (nowTs : Int)
    (nty subject : String) (deb : List (String × Int)) :
    List (String × Int) × List Event :=
  if ¬ notify_enabled cfg nty then (deb, [])
  else
    let debounced :=
      nty == "APP_ERROR" &&
        (match get_debounce deb nty with
         | some last => decide (nowTs - last < 3600)
         | none => false)
    if debounced then (deb, [])
    else
      let deb1 := if nty == "APP_ERROR" then set_debounce deb nty nowTs else deb
      if deliver subject then (deb1, [Event.attempt nty subject])
      else if h : nty = "APP_ERROR" then (deb1, [Event.attempt nty subject])
      else
        let r := notifier_send cfg deliver nowTs "APP_ERROR"
          "[UPS] CRITICAL: Email Sending Failed" deb1
        (r.1, Event.attempt nty subject :: r.2)
termination_by (if nty = "APP_ERROR" then 0 else 1)
decreasing_by
  simp only [h]
  simp

/-- `PowerManager._find_corresponding_stop_schedule` (src/app/power_manager.py
lines 431-447): first schedule whose action is `stop` and which matches by
date (one-time, when a truthy date is supplied) or by type and day-of-week
of the named start section (recurring).  Returns that record's `TIME`,
which may be absent.  The `ENABLED` flag is not consulted. -/
def find_corresponding_stop (all : List (String × Dict)) (startSection : String)
    (date : Option String) : List (String × Dict) → Option String
  | [] => none
  | (_, p) :: rest =>
    if pyToLower (dgetD p "ACTION" "") == "stop" then
      match date with
      | some d =>
        if d != "" then
          if aget? p "DATE" == some d then aget? p "TIME"
          else find_corresponding_stop all startSection date rest
        else
          if aget? p "TYPE" == aget? ((aget? all startSection).getD []) "TYPE" &&
             aget? p "DAY_OF_WEEK" ==
               aget? ((aget? all startSection).getD []) "DAY_OF_WEEK" then
            aget? p "TIME"
          else find_corresponding_stop all startSection date rest
      | none =>
        if aget? p "TYPE" == aget? ((aget? all startSection).getD []) "TYPE" &&
           aget? p "DAY_OF_WEEK" ==
             aget? ((aget? all startSection).getD []) "DAY_OF_WEEK" then
          aget? p "TIME"
        else find_corresponding_stop all startSection date rest
    else find_corresponding_stop all startSection date rest

/-- Result of the window-match query: the active start schedule's section
name and the window end time. -/
structure SimWindow where
  schedule : String
  end_time : String
deriving DecidableEq

/-- Loop body of `_should_simulation_be_active_now` (src/app/power_manager.py
lines 396-427) for one schedule record: `none` when the record does not put
simulation in-window now, otherwise the window information the loop would
return.  Note the one-time branch requires a truthy corresponding stop time
strictly after `now` (`if stop_time and now < stop_time`), while the
recurring branch defaults a missing or passed stop to `23:59`.  `ENABLED`
is never read. -/
def record_window (all : List (String × Dict)) (now : Clock)
    (sec : String) (p : Dict) : Option SimWindow :=
  let schedule_type := pyToLower (dgetD p "TYPE" "")
  let schedule_time := dgetD p "TIME" ""
  let action := pyToLower (dgetD p "ACTION" "")
  if action != "start" then none
  else if schedule_type == "one-time" then
    let schedule_date := dgetD p "DATE" ""
    if schedule_date == now.date then
      if pyStrLe schedule_time now.hm then
        match find_corresponding_stop all sec (some schedule_date) all with
        | some stop_time =>
          if stop_time != "" && pyStrLt now.hm stop_time then
            some { schedule := sec, end_time := stop_time }
          else none
        | none => none
      else none
    else none
  else if schedule_type == "recurring" then
    let dow := pyToLower (dgetD p "DAY_OF_WEEK" "")
    if dow == "everyday" || dow == now.day then
      if pyStrLe schedule_time now.hm then
        let stop_time := find_corresponding_stop all sec none all
        let end_time :=
          match stop_time with
          | some st => if st != "" && pyStrLt now.hm st then st else "23:59"
          | none => "23:59"
        if pyStrLt now.hm end_time then
          some { schedule := sec, end_time := end_time }
        else none
      else none
    else none
  else none

/-- `_should_simulation_be_active_now`: the first record the loop reports
in-window, if any (`{'active': False}` becomes `none`). -/
def should_simulation_be_active_now (scheds : List (String × Dict))
    (now : Clock) : Option SimWindow :=
  scheds.findSome? (fun q => record_window scheds now q.1 q.2)

/-- Exact-match test of `_check_schedules` (src/app/power_manager.py
lines 456-462): a one-time record matches when its date and time equal the
current minute, a recurring record when its time equals the current minute
and its day-of-week is today or `everyday`. -/
def sched_matches (now : Clock) (p : Dict) : Bool :=
  (aget? p "TYPE" == some "one-time" && aget? p "DATE" == some now.date &&
    aget? p "TIME" == some now.hm) ||
  (aget? p "TYPE" == some "recurring" && aget? p "TIME" == some now.hm &&
    (let dow := pyToLower (dgetD p "DAY_OF_WEEK" "")
     dow == "everyday" || dow == now.day))

/-- A record participates in `_check_schedules` only when enabled and
matching the current minute. -/
def sched_fires (now : Clock) (p : Dict) : Bool :=
  pyToLower (dgetD p "ENABLED" "false") == "true" && sched_matches now p

/-- Interrupted-schedule metadata recorded when a real outage interrupts a
simulation window (`interrupted_schedule_info`). -/
structure InterruptInfo where
  schedule : String
  end_time : String
  interrupted_at : String
deriving DecidableEq

/-- Parsed content of the power-state file as written by
`_save_power_state`: `STATE`, `TIMESTAMP`, `SIMULATION`, `SIM_INTERRUPTED`,
`INTERRUPTED_SCHEDULE`. -/
structure StateRec where
  state : String
  timestamp : Int
  simulation : Bool
  sim_interrupted : Bool
  interrupted_schedule : Option InterruptInfo
deriving DecidableEq

/-- One entry of the client-status JSON store.  `timestamp` is the parsed
UTC timestamp in unix seconds; `none` models a missing or unparsable
timestamp string (both make the staleness check a no-op in the source). -/
structure CStat where
  status : String
  timestamp : Option Int
deriving DecidableEq

/-- The persistent stores the engine reads and writes: the parsed config
store (main section, wake hosts, schedules), the power-state file (`none`
when cleared or absent), the client-notification flags file, the
notification-debounce file, the client-status JSON store, and the UPS
status indicator file's single line. -/
structure Sys where
  config : Dict
  schedules : List (String × Dict)
  wake_hosts : List (String × Dict)
  state_file : Option StateRec
  client_notif_file : List (String × Bool)
  debounce_file : List (String × Int)
  client_status_file : List (String × CStat)
  ups_file : String
deriving DecidableEq

/-- The `PowerManager` instance fields loaded by `_load_state`. -/
structure PMem where
  power_state : Option String
  power_ts : Option Int
  was_simulation : Bool
  sim_interrupted : Bool
  interrupted_info : Option InterruptInfo
  client_states : List (String × Bool)
deriving DecidableEq

/-- One cycle's external environment: the clock, the ping oracle (by IP),
the email-delivery oracle (by subject), the wakeonlan-success oracle (by
MAC), and whether this sub-poll runs the exact-match schedule check
(`iteration == 0`). -/
structure Env where
  now : Clock
  reach : String → Bool
  deliver : String → Bool
  wolOk : String → Bool
  check_scheds : Bool

/-- `_load_state`: populate the in-memory fields from the state file (all
defaults when the file is cleared/absent) and the client-notification
flags file. -/
def load_state (s : Sys) : PMem :=
  { power_state := s.state_file.map (·.state)
    power_ts := s.state_file.map (·.timestamp)
    was_simulation := match s.state_file with | some r => r.simulation | none => false
    sim_interrupted := match s.state_file with | some r => r.sim_interrupted | none => false
    interrupted_info := s.state_file.bind (·.interrupted_schedule)
    client_states := s.client_notif_file }

/-- `_save_power_state`: the record written to the state file — the given
state, the current time, the simulation flag as currently in the config,
and the in-memory interruption metadata. -/
def mk_power_state_rec (now : Clock) (cfg : Dict) (pm : PMem)
    (state : String) : StateRec :=
  { state := state
    timestamp := now.ts
    simulation := cfg_flag cfg "POWER_SIMULATION_MODE" "false"
    sim_interrupted := pm.sim_interrupted
    interrupted_schedule := pm.interrupted_info }

/-- `_check_schedules` loop (src/app/power_manager.py lines 452-485):
scan the records in order, skip disabled or non-matching ones, and execute
the first enabled matching record — toggle the simulation flag in the
config store for a `start`/`stop` action, send a `SIMULATION_MODE`
notification, disable a one-time record in place — then `break`.  Saving a
setting followed by the source's immediate reload is modelled as a direct
update of the parsed store.  Returns the updated stores, the events, and
the section names that executed (for stating at-most-once execution). -/
def check_schedules_go (now : Clock) (deliver : String → Bool) (s : Sys) :
    List (String × Dict) → Sys × List Event × List String
  | [] => (s, [], [])
  | (sec, p) :: rest =>
    if sched_fires now p then
      let action := pyToLower (dgetD p "ACTION" "")
      let s1 :=
        if action == "start" then
          { s with config := aset s.config "POWER_SIMULATION_MODE" "true" }
        else if action == "stop" then
          { s with config := aset s.config "POWER_SIMULATION_MODE" "false" }
        else s
      let de :=
        if action == "start" then
          notifier_send s1.config deliver now.ts "SIMULATION_MODE"
            "[UPS] INFO: Power Outage Simulation Started" s1.debounce_file
        else if action == "stop" then
          notifier_send s1.config deliver now.ts "SIMULATION_MODE"
            "[UPS] INFO: Power Outage Simulation Stopped" s1.debounce_file
        else (s1.debounce_file, [])
      let s2 := { s1 with debounce_file := de.1 }
      let s3 :=
        if aget? p "TYPE" == some "one-time" then
          { s2 with schedules := aset s2.schedules sec (aset p "ENABLED" "false") }
        else s2
      (s3, de.2, [sec])
    else check_schedules_go now deliver s rest

/-- `_check_schedules` applied to the system's schedule list. -/
def check_schedules (now : Clock) (deliver : String → Bool) (s : Sys) :
    Sys × List Event × List String :=
  check_schedules_go now deliver s s.schedules

/-- `SENTINEL_HOSTS` split on whitespace (Python `str.split()`: runs of
whitespace, no empty items). -/
def split_ws (s : String) : List String := splitWsGo s.data []

/-- The configured sentinel host list. -/
def sentinel_hosts (cfg : Dict) : List String :=
  split_ws (dgetD cfg "SENTINEL_HOSTS" "")

/-- `_determine_power_status` (src/app/power_manager.py lines 487-554).
Reads the simulation flag, returns `ONLINE` when no sentinels are
configured, pings every sentinel; when simulation is on and every sentinel
is unreachable it records the interruption metadata (only if the
window-match query reports an active window) and forces the simulation
flag off in the config store; finally the status is `OFFLINE` iff
simulation (as read at the top) with real power fine, or all sentinels
unreachable. -/
def determine_power_status (now : Clock) (reach : String → Bool)
    (pm : PMem) (s : Sys) : String × PMem × Sys :=
  let is_simulation_mode := cfg_flag s.config "POWER_SIMULATION_MODE" "false"
  let hosts := sentinel_hosts s.config
  if hosts.isEmpty then ("ONLINE", pm, s)
  else
    let online_hosts_count := (hosts.filter reach).length
    let real_power_offline := online_hosts_count == 0
    let pmSys :=
      if is_simulation_mode && real_power_offline then
        let pm2 :=
          match should_simulation_be_active_now s.schedules now with
          | some w =>
            { pm with sim_interrupted := true,
                      interrupted_info := some
                        { schedule := w.schedule, end_time := w.end_time,
                          interrupted_at := now.date ++ " " ++ now.hm } }
          | none => pm
        (pm2, { s with config := aset s.config "POWER_SIMULATION_MODE" "false" })
      else (pm, s)
    if is_simulation_mode && !real_power_offline then ("OFFLINE", pmSys.1, pmSys.2)
    else if real_power_offline then ("OFFLINE", pmSys.1, pmSys.2)
    else ("ONLINE", pmSys.1, pmSys.2)

/-- `_handle_power_offline` (src/app/power_manager.py lines 556-590): on a
fresh transition clear the client-notification flags and send a
`SIMULATION_MODE` or `POWER_FAIL` notification depending on the current
simulation flag; persist `POWER_FAIL` when the state changed or
interruption flags must be captured; always rewrite the UPS status file to
the on-battery line. -/
def handle_power_offline (now : Clock) (deliver : String → Bool)
    (pm : PMem) (s : Sys) : PMem × Sys × List Event :=
  let state_changed := pm.power_state != some "POWER_FAIL"
  let step1 :=
    if state_changed then
      let s1 := { s with client_notif_file := [] }
      let pm1 := { pm with client_states := [] }
      let is_simulation := cfg_flag s1.config "POWER_SIMULATION_MODE" "false"
      let de :=
        if is_simulation then
          notifier_send s1.config deliver now.ts "SIMULATION_MODE"
            "[UPS] INFO: Power Outage Simulation Active" s1.debounce_file
        else
          notifier_send s1.config deliver now.ts "POWER_FAIL"
            "[UPS] ALERT: Power Outage Detected" s1.debounce_file
      (pm1, { s1 with debounce_file := de.1 }, de.2)
    else (pm, s, ([] : List Event))
  let pm1 := step1.1
  let s1 := step1.2.1
  let should_save := state_changed || pm1.sim_interrupted
  let s2 :=
    if should_save then
      { s1 with state_file := some (mk_power_state_rec now s1.config pm1 "POWER_FAIL") }
    else s1
  (pm1, { s2 with ups_file := "ups.status: OB LB" }, step1.2.2)

/-- Python truthiness of `self.power_state` (`None` and `''` are falsy). -/
def ps_truthy : Option String → Bool
  | some s => s != ""
  | none => false

/-- Python truthiness of `self.power_state_timestamp` (`None` and `0` are
falsy). -/
def ts_truthy : Option Int → Bool
  | some t => t != 0
  | none => false

/-- `_initiate_wol` per-host accumulator: the client-status store, the
woken list, and the emitted events. -/
structure WolAcc where
  statuses : List (String × CStat)
  woken : List String
  events : List Event

/-- One host of the `_initiate_wol` loop (src/app/power_manager.py
lines 689-730): skip hosts with `AUTO_WOL=false`, hosts not flagged
`IGNORE_SIMULATION` while simulation is active, hosts missing IP or MAC,
and hosts already reachable; otherwise send the magic packet and record
`wol_sent` or `wol_failed` in the client-status store. -/
def wol_host_step (now : Clock) (reach wolOk : String → Bool) (is_sim : Bool)
    (acc : WolAcc) (h : String × Dict) : WolAcc :=
  let p := h.2
  if pyToLower (dgetD p "AUTO_WOL" "true") == "false" then acc
  else if is_sim && pyToLower (dgetD p "IGNORE_SIMULATION" "false") != "true" then acc
  else
    match aget? p "IP", aget? p "MAC" with
    | some ip, some mac =>
      if ip == "" || mac == "" then acc
      else if reach ip then acc
      else if wolOk mac then
        { statuses := aset acc.statuses ip ⟨"wol_sent", some now.ts⟩
          woken := acc.woken ++ [ip]
          events := acc.events ++ [Event.wol mac] }
      else
        { acc with statuses := aset acc.statuses ip ⟨"wol_failed", some now.ts⟩ }
    | _, _ => acc

/-- `_initiate_wol` (src/app/power_manager.py lines 679-734): process every
wake host, then send one consolidated `POWER_RESTORED` notification when
anyone was woken. -/
def initiate_wol (now : Clock) (deliver reach wolOk : String → Bool)
    (s : Sys) : Sys × List Event :=
  let is_sim := cfg_flag s.config "POWER_SIMULATION_MODE" "false"
  let res := s.wake_hosts.foldl (wol_host_step now reach wolOk is_sim)
    { statuses := s.client_status_file, woken := [], events := [] }
  if res.woken.isEmpty then
    ({ s with client_status_file := res.statuses }, res.events)
  else
    let de := notifier_send s.config deliver now.ts "POWER_RESTORED"
      "[UPS] INFO: WoL Sequence Initiated" s.debounce_file
    ({ s with client_status_file := res.statuses, debounce_file := de.1 },
     res.events ++ de.2)

/-- `_handle_power_online` (src/app/power_manager.py lines 592-677): write
the on-line UPS status, return if no prior state; from `POWER_FAIL` decide
between restoring simulation (state `POWER_RESTORED_SIM`), a plain
simulation stop, or plain restoration (state `POWER_RESTORED`); from
`POWER_RESTORED` or `POWER_RESTORED_SIM` run the wake sequence once the
WoL delay has elapsed and clear the state files and interruption flags. -/
def handle_power_online (now : Clock) (deliver reach wolOk : String → Bool)
    (pm : PMem) (s : Sys) : PMem × Sys × List Event :=
  let s := { s with ups_file := "ups.status: OL" }
  if ¬ ps_truthy pm.power_state then (pm, s, [])
  else
    let wol_delay := get_int_d s.config "WOL_DELAY_MINUTES" 5
    if pm.power_state == some "POWER_FAIL" then
      if pm.sim_interrupted then
        let step1 :=
          match pm.interrupted_info with
          | some info =>
            if pyStrLt now.hm info.end_time then
              let s1 := { s with config := aset s.config "POWER_SIMULATION_MODE" "true" }
              let de := notifier_send s1.config deliver now.ts "SIMULATION_MODE"
                "[UPS] INFO: Simulation Restored After Power Failure" s1.debounce_file
              ({ s1 with debounce_file := de.1 }, de.2)
            else
              let de := notifier_send s.config deliver now.ts "POWER_RESTORED"
                "[UPS] INFO: Power Restored (Simulation Window Ended)" s.debounce_file
              ({ s with debounce_file := de.1 }, de.2)
          | none => (s, [])
        let s2 := step1.1
        let pm2 :=
          if ¬ cfg_flag s2.config "POWER_SIMULATION_MODE" "false" then
            { pm with sim_interrupted := false, interrupted_info := none }
          else pm
        let st :=
          if cfg_flag s2.config "POWER_SIMULATION_MODE" "false" && pm2.sim_interrupted
          then "POWER_RESTORED_SIM" else "POWER_RESTORED"
        (pm2, { s2 with state_file := some (mk_power_state_rec now s2.config pm2 st) },
         step1.2)
      else
        let de :=
          if pm.was_simulation then
            notifier_send s.config deliver now.ts "SIMULATION_MODE"
              "[UPS] INFO: Power Outage Simulation Stopped" s.debounce_file
          else
            notifier_send s.config deliver now.ts "POWER_RESTORED"
              "[UPS] INFO: Power Restored" s.debounce_file
        let s2 := { s with debounce_file := de.1 }
        let st :=
          if cfg_flag s2.config "POWER_SIMULATION_MODE" "false" && pm.sim_interrupted
          then "POWER_RESTORED_SIM" else "POWER_RESTORED"
        (pm, { s2 with state_file := some (mk_power_state_rec now s2.config pm st) },
         de.2)
    else if pm.power_state == some "POWER_RESTORED" then
      if ts_truthy pm.power_ts &&
         decide (now.ts - (pm.power_ts.getD 0) ≥ wol_delay * 60) then
        let r := initiate_wol now deliver reach wolOk s
        ({ pm with sim_interrupted := false, interrupted_info := none },
         { r.1 with state_file := none, client_notif_file := [] }, r.2)
      else (pm, s, [])
    else if pm.power_state == some "POWER_RESTORED_SIM" then
      if ts_truthy pm.power_ts &&
         decide (now.ts - (pm.power_ts.getD 0) ≥ wol_delay * 60) then
        let r := initiate_wol now deliver reach wolOk s
        ({ pm with sim_interrupted := false, interrupted_info := none },
         { r.1 with state_file := none, client_notif_file := [] }, r.2)
      else (pm, s, [])
    else (pm, s, [])

/-- `_check_client_statuses` per-host accumulator. -/
structure ClientAcc where
  states : List (String × Bool)
  deb : List (String × Int)
  events : List Event

/-- One host of the `_check_client_statuses` loop (src/app/power_manager.py
lines 781-830): only wake hosts carrying `SHUTDOWN_DELAY_MINUTES` and a
truthy IP with a status entry participate; a `shutdown_pending` status
sends a flag-gated `CLIENT_SHUTDOWN` notification; a report older than the
stale threshold sends a flag-gated `CLIENT_STALE` notification, while a
fresh report deletes the stale flag. -/
def client_host_step (now : Clock) (deliver : String → Bool) (cfg : Dict)
    (statuses : List (String × CStat)) (stale_minutes : Int)
    (acc : ClientAcc) (h : String × Dict) : ClientAcc :=
  let p := h.2
  if ¬ acontains p "SHUTDOWN_DELAY_MINUTES" then acc
  else
    let ip := (aget? p "IP").getD ""
    if ip == "" then acc
    else
      match aget? statuses ip with
      | none => acc
      | some st =>
        let shutdown_flag := "SHUTDOWN_NOTIFIED_" ++ replaceDots ip
        let acc1 :=
          if st.status == "shutdown_pending" &&
             ¬ ((aget? acc.states shutdown_flag).getD false) then
            let de := notifier_send cfg deliver now.ts "CLIENT_SHUTDOWN"
              "[UPS] ALERT: Client Shutdown" acc.deb
            { states := aset acc.states shutdown_flag true, deb := de.1,
              events := acc.events ++ de.2 }
          else acc
        let stale_flag := "STALE_NOTIFIED_" ++ replaceDots ip
        match st.timestamp with
        | none => acc1
        | some ts =>
          if decide (now.ts - ts > stale_minutes * 60) then
            if ¬ ((aget? acc1.states stale_flag).getD false) then
              let de := notifier_send cfg deliver now.ts "CLIENT_STALE"
                "[UPS] WARNING: Client Stale" acc1.deb
              { states := aset acc1.states stale_flag true, deb := de.1,
                events := acc1.events ++ de.2 }
            else acc1
          else if acontains acc1.states stale_flag then
            { acc1 with states := aerase acc1.states stale_flag }
          else acc1

/-- `_check_client_statuses` over all wake hosts. -/
def check_client_statuses (now : Clock) (deliver : String → Bool)
    (pm : PMem) (s : Sys) : PMem × Sys × List Event :=
  let stale_minutes := get_int_d s.config "CLIENT_STALE_TIMEOUT_MINUTES" 5
  let res := s.wake_hosts.foldl
    (client_host_step now deliver s.config s.client_status_file stale_minutes)
    { states := pm.client_states, deb := s.debounce_file, events := [] }
  ({ pm with client_states := res.states },
   { s with debounce_file := res.deb }, res.events)

/-- `PowerManager.run` for one sub-poll (src/app/power_manager.py
lines 832-871): load state, run the exact-match schedule check when this
is iteration 0, determine the power status, then — checking the
`POWER_RESTORED_SIM` state *before* branching on the computed status —
dispatch to the offline or online handler, check client statuses, and
persist the in-memory client-notification flags. -/
def run_cycle (env : Env) (s : Sys) : Sys × List Event :=
  let pm := load_state s
  let step1 :=
    if env.check_scheds then
      let r := check_schedules env.now env.deliver s
      (r.1, r.2.1)
    else (s, [])
  let s1 := step1.1
  let r2 := determine_power_status env.now env.reach pm s1
  let status := r2.1
  let pm2 := r2.2.1
  let s2 := r2.2.2
  let r3 :=
    if pm2.power_state == some "POWER_RESTORED_SIM" then
      handle_power_online env.now env.deliver env.reach env.wolOk pm2 s2
    else if status == "OFFLINE" then
      handle_power_offline env.now env.deliver pm2 s2
    else
      handle_power_online env.now env.deliver env.reach env.wolOk pm2 s2
  let pm3 := r3.1
  let s3 := r3.2.1
  let r4 := check_client_statuses env.now env.deliver pm3 s3
  let pm4 := r4.1
  let s4 := r4.2.1
  ({ s4 with client_notif_file := pm4.client_states },
   step1.2 ++ r3.2.2 ++ r4.2.2)

/-- Iterated cycles; each element of the returned list is one cycle's
events, oldest first. -/
def run_cycles : List Env → Sys → Sys × List (List Event)
  | [], s => (s, [])
  | e :: es, s =>
    let r := run_cycle e s
    let rest := run_cycles es r.1
    (rest.1, r.2 :: rest.2)

/-- Count the power-fail and simulation-mode delivery attempts in an event
list (the notifications claim C4 is about). -/
def countPF (evs : List Event) : Nat :=
  evs.countP (fun e =>
    match e with
    | Event.attempt c _ => c == "POWER_FAIL" || c == "SIMULATION_MODE"
    | _ => false)

/-- Count the `CLIENT_STALE` delivery attempts in an event list. -/
def countStale (evs : List Event) : Nat :=
  evs.countP (fun e =>
    match e with
    | Event.attempt c _ => c == "CLIENT_STALE"
    | _ => false)

/-- Select the Wake-on-LAN packets from an event list. -/
def wolEvents (evs : List Event) : List Event :=
  evs.filter (fun e => match e with | Event.wol _ => true | _ => false)

/-- Rewrite the `ENABLED` key of every schedule record (used to state that
the window-match query ignores the enabled flag). -/
def set_enabled_all (v : String) (L : List (String × Dict)) :
    List (String × Dict) :=
  L.map (fun q => (q.1, aset q.2 "ENABLED" v))

/-- An OFFLINE episode: every cycle's computed status is `OFFLINE` and no
schedule record fires (so the schedule pass, when run, changes nothing),
stated over the trajectory of `run_cycle`. -/
def offline_episode : List Env → Sys → Bool
  | [], _ => true
  | e :: es, s =>
    ((determine_power_status e.now e.reach (load_state s) s).1 == "OFFLINE") &&
    (!e.check_scheds || s.schedules.all (fun q => !sched_fires e.now q.2)) &&
    offline_episode es (run_cycle e s).1

/-! ### Helper lemmas -/

theorem aget_aset_self {α : Type} (l : List (String × α)) (k : String) (v : α) :
    aget? (aset l k v) k = some v := by
  induction l with
  | nil => simp [aset, aget?]
  | cons hd tl ih =>
    obtain ⟨k', v'⟩ := hd
    by_cases h : k' == k
    · simp [aset, h, aget?, List.find?]
    · simp only [aset, h, if_neg]
      simpa [aget?, List.find?, h] using ih

theorem aget_aset_ne {α : Type} (l : List (String × α)) (k k' : String) (v : α)
    (h : k' ≠ k) : aget? (aset l k v) k' = aget? l k' := by
  have hkk : (k == k') = false := by
    simp only [beq_eq_false_iff_ne, ne_eq]
    exact fun e => h e.symm
  induction l with
  | nil => simp [aset, aget?, List.find?, hkk]
  | cons hd tl ih =>
    obtain ⟨k0, v0⟩ := hd
    by_cases h0 : k0 == k
    · have hk0 : k0 = k := by simpa [beq_iff_eq] using h0
      subst hk0
      simp [aset, aget?, List.find?, hkk]
    · simp only [aset, h0, if_neg]
      by_cases h1 : k0 == k'
      · simp [aget?, List.find?, h1]
      · simpa [aget?, List.find?, h1] using ih

theorem aget_aerase_self {α : Type} (l : List (String × α)) (k : String) :
    aget? (aerase l k) k = none := by
  induction l with
  | nil => simp [aerase, aget?]
  | cons hd tl ih =>
    obtain ⟨k0, v0⟩ := hd
    by_cases h0 : k0 == k
    · have : (k0 != k) = false := by simp [bne, h0]
      simpa [aerase, this, List.filter] using ih
    · have : (k0 != k) = true := by simp [bne, h0]
      simpa [aerase, this, List.filter, aget?, List.find?, h0] using ih

theorem get_debounce_set (deb : List (String × Int)) (k : String) (v : Int) :
    get_debounce (set_debounce deb k v) k = some v := by
  induction deb with
  | nil => simp [set_debounce, get_debounce, aget?, List.find?]
  | cons hd tl ih =>
    obtain ⟨k0, v0⟩ := hd
    by_cases h0 : k0 == k
    · have : (k0 != k) = false := by simp [bne, h0]
      simpa [set_debounce, get_debounce, this, List.filter] using ih
    · have : (k0 != k) = true := by simp [bne, h0]
      simpa [set_debounce, get_debounce, this, List.filter, aget?, List.find?, h0]
        using ih

/-- Shape of the events produced by one `Notifier.send` with the category
fixed to `APP_ERROR`: at most one delivery attempt, and it carries that
category and subject. -/
theorem notifier_send_app_error_shape (cfg : Dict) (d : String → Bool)
    (t : Int) (subj : String) (deb : List (String × Int)) :
    (notifier_send cfg d t "APP_ERROR" subj deb).2 = [] ∨
    (notifier_send cfg d t "APP_ERROR" subj deb).2 =
      [Event.attempt "APP_ERROR" subj] := by
  rw [notifier_send]
  rcases hgd : get_debounce deb "APP_ERROR" with _ | last <;>
    simp only [hgd] <;> split_ifs <;> simp_all

/-- Shape of the events produced by one `Notifier.send`: nothing, one
attempt for the requested category, or that attempt followed by a single
`APP_ERROR` escalation attempt. -/
theorem notifier_send_shape (cfg : Dict) (d : String → Bool) (t : Int)
    (nty subj : String) (deb : List (String × Int)) :
    (notifier_send cfg d t nty subj deb).2 = [] ∨
    (notifier_send cfg d t nty subj deb).2 = [Event.attempt nty subj] ∨
    ∃ s2, (notifier_send cfg d t nty subj deb).2 =
      [Event.attempt nty subj, Event.attempt "APP_ERROR" s2] := by
  rw [notifier_send]
  rcases hgd : get_debounce deb nty with _ | last <;>
    simp only [hgd] <;>
    split_ifs <;>
    (rcases notifier_send_app_error_shape cfg d t
        "[UPS] CRITICAL: Email Sending Failed" (set_debounce deb nty t) with h1 | h1 <;>
     rcases notifier_send_app_error_shape cfg d t
        "[UPS] CRITICAL: Email Sending Failed" deb with h2 | h2 <;>
     simp [h1, h2])

/-- The category test used by `countPF` holds for no event of a
notification whose category is neither power-fail nor simulation-mode
(escalations are `APP_ERROR`). -/
theorem countPF_notifier (cfg : Dict) (d : String → Bool) (t : Int)
    (nty subj : String) (deb : List (String × Int))
    (h1 : nty ≠ "POWER_FAIL") (h2 : nty ≠ "SIMULATION_MODE") :
    countPF (notifier_send cfg d t nty subj deb).2 = 0 := by
  rcases notifier_send_shape cfg d t nty subj deb with h | h | ⟨s2, h⟩ <;>
    simp [countPF, h, h1, h2]

/-- `countStale` of a non-`CLIENT_STALE` notification's events is zero. -/
theorem countStale_notifier (cfg : Dict) (d : String → Bool) (t : Int)
    (nty subj : String) (deb : List (String × Int))
    (h1 : nty ≠ "CLIENT_STALE") :
    countStale (notifier_send cfg d t nty subj deb).2 = 0 := by
  rcases notifier_send_shape cfg d t nty subj deb with h | h | ⟨s2, h⟩ <;>
    simp [countStale, h, h1]

/-- A notification's events contain no Wake-on-LAN packets. -/
theorem wolEvents_notifier (cfg : Dict) (d : String → Bool) (t : Int)
    (nty subj : String) (deb : List (String × Int)) :
    wolEvents (notifier_send cfg d t nty subj deb).2 = [] := by
  rcases notifier_send_shape cfg d t nty subj deb with h | h | ⟨s2, h⟩ <;>
    simp [wolEvents, h]

/-- An enabled, non-debounced send of a category other than `APP_ERROR`
makes exactly one attempt for that category. -/
theorem notifier_send_enabled_events (cfg : Dict) (d : String → Bool)
    (t : Int) (nty subj : String) (deb : List (String × Int))
    (h1 : nty ≠ "APP_ERROR") (h2 : notify_enabled cfg nty = true) :
    (notifier_send cfg d t nty subj deb).2 = [Event.attempt nty subj] ∨
    ∃ s2, (notifier_send cfg d t nty subj deb).2 =
      [Event.attempt nty subj, Event.attempt "APP_ERROR" s2] := by
  rw [notifier_send]
  have hb : (nty == "APP_ERROR") = false := by simp [h1]
  simp only [h2, not_true, if_neg, hb, Bool.false_and, if_false]
  split_ifs with hdel <;>
    (rcases notifier_send_app_error_shape cfg d t
        "[UPS] CRITICAL: Email Sending Failed" deb with h | h <;>
     simp_all)

/-! ### Claims -/

/-- C10: in a single invocation of the exact-match schedule check, at most
one schedule record executes its action — the scan stops at the first
enabled matching record, so any other simultaneously matching schedules
are silently skipped for that cycle. -/
theorem claim_C10 (now : Clock) (deliver : String → Bool) (s : Sys)
    (L : List (String × Dict)) :
    (check_schedules_go now deliver s L).2.2 =
      (match L.find? (fun q => sched_fires now q.2) with
       | some q => [q.1]
       | none => []) ∧
    (check_schedules_go now deliver s L).2.2.length ≤ 1 := by
  induction L with
  | nil => simp [check_schedules_go]
  | cons hd tl ih =>
    obtain ⟨sec, p⟩ := hd
    by_cases hf : sched_fires now p
    · simp [check_schedules_go, hf, List.find?_cons_of_pos]
    · rw [check_schedules_go]
      simp only [hf, Bool.false_eq_true, if_false]
      rw [List.find?_cons_of_neg _ (by simpa using hf)]
      exact ih

/-- C6: two `APP_ERROR` notification attempts (category enabled) whose
second occurs less than 3600 seconds after the first recorded send make
exactly one delivery attempt, and the debounce timestamp is recorded
before the delivery attempt, so a failed delivery still counts against
the window. -/
theorem claim_C6 (cfg : Dict) (d : String → Bool) (deb : List (String × Int))
    (t1 t2 : Int) (s1 s2 : String)
    (hen : notify_enabled cfg "APP_ERROR" = true)
    (hfirst : ∀ l, get_debounce deb "APP_ERROR" = some l → t1 - l ≥ 3600)
    (hwin : t2 - t1 < 3600) :
    (notifier_send cfg d t1 "APP_ERROR" s1 deb).2 =
      [Event.attempt "APP_ERROR" s1] ∧
    get_debounce (notifier_send cfg d t1 "APP_ERROR" s1 deb).1 "APP_ERROR" =
      some t1 ∧
    (notifier_send cfg d t2 "APP_ERROR" s2
      (notifier_send cfg d t1 "APP_ERROR" s1 deb).1).2 = [] := by
  have r1 : notifier_send cfg d t1 "APP_ERROR" s1 deb =
      (set_debounce deb "APP_ERROR" t1, [Event.attempt "APP_ERROR" s1]) := by
    rw [notifier_send]
    have hdb : (match get_debounce deb "APP_ERROR" with
        | some last => decide (t1 - last < 3600)
        | none => false) = false := by
      rcases hgd : get_debounce deb "APP_ERROR" with _ | l
      · rfl
      · have := hfirst l hgd
        simp only [decide_eq_false_iff_not]
        omega
    rw [hdb]
    by_cases hd1 : d s1 <;> simp [hen, hd1]
  refine ⟨by rw [r1], ?_, ?_⟩
  · rw [r1]
    exact get_debounce_set deb "APP_ERROR" t1
  · rw [r1]
    rw [notifier_send]
    rw [get_debounce_set deb "APP_ERROR" t1]
    simp [hen, hwin]

/-- C7: `Notifier.send` recursion is bounded — any send makes at most two
delivery attempts, a send whose category is `APP_ERROR` makes at most one,
and a failed delivery for an enabled non-`APP_ERROR` category makes
exactly its own attempt followed by the events of one recursive
`APP_ERROR` send (which cannot itself recurse); `notifier_send` is a total
function, so every send terminates. -/
theorem claim_C7 :
    (∀ cfg d t nty subj deb,
      (notifier_send cfg d t nty subj deb).2.length ≤ 2) ∧
    (∀ cfg d t subj deb,
      (notifier_send cfg d t "APP_ERROR" subj deb).2.length ≤ 1) ∧
    (∀ cfg d t nty subj deb, nty ≠ "APP_ERROR" →
      notify_enabled cfg nty = true → d subj = false →
      (notifier_send cfg d t nty subj deb).2 =
        Event.attempt nty subj ::
          (notifier_send cfg d t "APP_ERROR"
            "[UPS] CRITICAL: Email Sending Failed" deb).2) := by
  refine ⟨?_, ?_, ?_⟩
  · intro cfg d t nty subj deb
    rcases notifier_send_shape cfg d t nty subj deb with h | h | ⟨s2, h⟩ <;>
      simp [h]
  · intro cfg d t subj deb
    rcases notifier_send_app_error_shape cfg d t subj deb with h | h <;> simp [h]
  · intro cfg d t nty subj deb h1 h2 h3
    rw [notifier_send]
    have hb : (nty == "APP_ERROR") = false := by simp [h1]
    simp [h2, hb, h3, h1]

/-- Witness for C7: with delivery failing, an enabled `POWER_FAIL` send
makes its own attempt plus the single escalation attempt. -/
theorem claim_C7_witness :
    (("POWER_FAIL" : String) ≠ "APP_ERROR" ∧
      notify_enabled [("NOTIFY_POWER_FAIL", "true"), ("NOTIFY_APP_ERROR", "true")]
        "POWER_FAIL" = true ∧
      (fun (_ : String) => false) "S" = false) ∧
    (notifier_send [("NOTIFY_POWER_FAIL", "true"), ("NOTIFY_APP_ERROR", "true")]
        (fun _ => false) 0 "POWER_FAIL" "S" []).2 =
      Event.attempt "POWER_FAIL" "S" ::
        (notifier_send [("NOTIFY_POWER_FAIL", "true"), ("NOTIFY_APP_ERROR", "true")]
          (fun _ => false) 0 "APP_ERROR"
          "[UPS] CRITICAL: Email Sending Failed" []).2 :=
  ⟨⟨by decide, by decide, rfl⟩,
    claim_C7.2.2 [("NOTIFY_POWER_FAIL", "true"), ("NOTIFY_APP_ERROR", "true")]
      (fun _ => false) 0 "POWER_FAIL" "S" [] (by decide) (by decide) rfl⟩

/-- Witness for C6: a failed first `APP_ERROR` send still records the
debounce timestamp and suppresses a second attempt 100 seconds later. -/
theorem claim_C6_witness :
    (notifier_send [("NOTIFY_APP_ERROR", "true")] (fun _ => false) 1000
      "APP_ERROR" "S1" []).2 = [Event.attempt "APP_ERROR" "S1"] ∧
    get_debounce (notifier_send [("NOTIFY_APP_ERROR", "true")] (fun _ => false)
      1000 "APP_ERROR" "S1" []).1 "APP_ERROR" = some 1000 ∧
    (notifier_send [("NOTIFY_APP_ERROR", "true")] (fun _ => false) 1100
      "APP_ERROR" "S2"
      (notifier_send [("NOTIFY_APP_ERROR", "true")] (fun _ => false) 1000
        "APP_ERROR" "S1" []).1).2 = [] :=
  claim_C6 [("NOTIFY_APP_ERROR", "true")] (fun _ => false) [] 1000 1100 "S1" "S2"
    (by decide) (by intro l hl; simp [get_debounce, aget?] at hl) (by decide)

/-- C3: with no sentinels configured the status is always `ONLINE`; for a
non-empty sentinel list the status is `OFFLINE` exactly when (the
simulation flag read at the top is on and some sentinel is reachable) or
every sentinel is unreachable; in particular a mixed reachable/unreachable
list without simulation resolves `ONLINE`. -/
theorem claim_C3 (now : Clock) (reach : String → Bool) (pm : PMem) (s : Sys) :
    (sentinel_hosts s.config = [] →
      (determine_power_status now reach pm s).1 = "ONLINE") ∧
    (sentinel_hosts s.config ≠ [] →
      ((determine_power_status now reach pm s).1 = "OFFLINE" ↔
        ((cfg_flag s.config "POWER_SIMULATION_MODE" "false" = true ∧
          ∃ h ∈ sentinel_hosts s.config, reach h = true) ∨
         ∀ h ∈ sentinel_hosts s.config, reach h = false))) ∧
    (sentinel_hosts s.config ≠ [] →
      cfg_flag s.config "POWER_SIMULATION_MODE" "false" = false →
      (∃ h ∈ sentinel_hosts s.config, reach h = true) →
      (determine_power_status now reach pm s).1 = "ONLINE") := by
  refine ⟨?_, ?_, ?_⟩
  · intro he
    simp [determine_power_status, he]
  · intro hne
    have hne' : (sentinel_hosts s.config).isEmpty = false := by
      simpa [List.isEmpty_iff] using hne
    rcases hfe : (sentinel_hosts s.config).filter reach with _ | ⟨a, as⟩
    · have hall : ∀ h ∈ sentinel_hosts s.config, reach h = false := by
        intro h hm
        have := List.filter_eq_nil.mp hfe h hm
        simpa using this
      by_cases hsim : cfg_flag s.config "POWER_SIMULATION_MODE" "false"
      · simp only [determine_power_status, hne', hfe]
        simp [hsim]
        exact Or.inr hall
      · simp only [determine_power_status, hne', hfe]
        simp [hsim]
        exact hall
    · have ha : a ∈ sentinel_hosts s.config ∧ reach a = true := by
        have : a ∈ (sentinel_hosts s.config).filter reach := by
          rw [hfe]; exact List.mem_cons_self a as
        exact ⟨(List.mem_filter.mp this).1, (List.mem_filter.mp this).2⟩
      have hnotall : ¬ ∀ h ∈ sentinel_hosts s.config, reach h = false := by
        intro hc
        have := hc a ha.1
        rw [ha.2] at this
        exact absurd this (by decide)
      by_cases hsim : cfg_flag s.config "POWER_SIMULATION_MODE" "false"
      · simp only [determine_power_status, hne', hfe]
        simp [hsim, hnotall]
        exact ⟨a, ha.1, ha.2⟩
      · simp only [determine_power_status, hne', hfe]
        simp [hsim, hnotall]
  · intro hne hsim ⟨h, hm, ht⟩
    have hne' : (sentinel_hosts s.config).isEmpty = false := by
      simpa [List.isEmpty_iff] using hne
    have hmem : h ∈ (sentinel_hosts s.config).filter reach :=
      List.mem_filter.mpr ⟨hm, ht⟩
    rcases hfe : (sentinel_hosts s.config).filter reach with _ | ⟨a, as⟩
    · rw [hfe] at hmem
      cases hmem
    · simp [determine_power_status, hne', hfe, hsim]

/-- Witness for C3: two sentinels, one reachable and one not, simulation
off: the status is `ONLINE`. -/
theorem claim_C3_witness :
    (sentinel_hosts [("SENTINEL_HOSTS", "10.0.0.1 10.0.0.2")] ≠ [] ∧
      cfg_flag [("SENTINEL_HOSTS", "10.0.0.1 10.0.0.2")]
        "POWER_SIMULATION_MODE" "false" = false ∧
      ∃ h ∈ sentinel_hosts [("SENTINEL_HOSTS", "10.0.0.1 10.0.0.2")],
        (fun ip => ip == "10.0.0.1") h = true) ∧
    (determine_power_status ⟨"2026-01-01", "10:00", "thursday", 0⟩
      (fun ip => ip == "10.0.0.1")
      ⟨none, none, false, false, none, []⟩
      ⟨[("SENTINEL_HOSTS", "10.0.0.1 10.0.0.2")], [], [], none, [], [], [], ""⟩).1 =
      "ONLINE" :=
  ⟨⟨by decide, by decide, by decide⟩,
    (claim_C3 ⟨"2026-01-01", "10:00", "thursday", 0⟩ (fun ip => ip == "10.0.0.1")
      ⟨none, none, false, false, none, []⟩
      ⟨[("SENTINEL_HOSTS", "10.0.0.1 10.0.0.2")], [], [], none, [], [], [], ""⟩).2.2
      (by decide) (by decide) (by decide)⟩


/-! ### Claim C5: window-match for one-time schedules -/

theorem dget_aset_enabled (p : Dict) (v k dflt : String) (h : k ≠ "ENABLED") :
    dgetD (aset p "ENABLED" v) k dflt = dgetD p k dflt := by
  simp [dgetD, aget_aset_ne _ _ _ _ h]

theorem aget_set_enabled_all (L : List (String × Dict)) (v sec : String) :
    aget? (set_enabled_all v L) sec =
      (aget? L sec).map (fun p => aset p "ENABLED" v) := by
  induction L with
  | nil => simp [set_enabled_all, aget?]
  | cons hd tl ih =>
    obtain ⟨k0, p0⟩ := hd
    by_cases h0 : k0 == sec
    · simp [set_enabled_all, aget?, List.find?, h0]
    · simp only [set_enabled_all, List.map] at *
      simpa [aget?, List.find?, h0] using ih

theorem find_stop_set_enabled (L : List (String × Dict)) (v sec : String)
    (date : Option String) (rest : List (String × Dict)) :
    find_corresponding_stop (set_enabled_all v L) sec date
      (set_enabled_all v rest) =
    find_corresponding_stop L sec date rest := by
  induction rest with
  | nil => cases date <;> rfl
  | cons hd tl ih =>
    obtain ⟨k0, p0⟩ := hd
    have hact := dget_aset_enabled p0 v "ACTION" "" (by decide)
    have hdt : aget? (aset p0 "ENABLED" v) "DATE" = aget? p0 "DATE" :=
      aget_aset_ne p0 "ENABLED" "DATE" v (by decide)
    have htm : aget? (aset p0 "ENABLED" v) "TIME" = aget? p0 "TIME" :=
      aget_aset_ne p0 "ENABLED" "TIME" v (by decide)
    have hty : aget? (aset p0 "ENABLED" v) "TYPE" = aget? p0 "TYPE" :=
      aget_aset_ne p0 "ENABLED" "TYPE" v (by decide)
    have hdw : aget? (aset p0 "ENABLED" v) "DAY_OF_WEEK" =
        aget? p0 "DAY_OF_WEEK" :=
      aget_aset_ne p0 "ENABLED" "DAY_OF_WEEK" v (by decide)
    have hstart : aget? ((aget? (set_enabled_all v L) sec).getD []) "TYPE" =
        aget? ((aget? L sec).getD []) "TYPE" ∧
        aget? ((aget? (set_enabled_all v L) sec).getD []) "DAY_OF_WEEK" =
        aget? ((aget? L sec).getD []) "DAY_OF_WEEK" := by
      rw [aget_set_enabled_all]
      rcases aget? L sec with _ | q
      · exact ⟨rfl, rfl⟩
      · exact ⟨aget_aset_ne q "ENABLED" "TYPE" v (by decide),
          aget_aset_ne q "ENABLED" "DAY_OF_WEEK" v (by decide)⟩
    cases date with
    | none =>
      simp only [set_enabled_all, List.map, find_corresponding_stop, hact, htm,
        hty, hdw, hstart.1, hstart.2]
      split_ifs <;> simp_all [set_enabled_all]
    | some d =>
      simp only [set_enabled_all, List.map, find_corresponding_stop, hact, htm,
        hty, hdt, hdw, hstart.1, hstart.2]
      split_ifs <;> simp_all [set_enabled_all]

theorem record_window_set_enabled (L : List (String × Dict)) (v : String)
    (now : Clock) (sec : String) (p : Dict) :
    record_window (set_enabled_all v L) now sec (aset p "ENABLED" v) =
      record_window L now sec p := by
  have hact := dget_aset_enabled p v "ACTION" "" (by decide)
  have hty := dget_aset_enabled p v "TYPE" "" (by decide)
  have htm := dget_aset_enabled p v "TIME" "" (by decide)
  have hdt := dget_aset_enabled p v "DATE" "" (by decide)
  have hdw := dget_aset_enabled p v "DAY_OF_WEEK" "" (by decide)
  have hstop1 := find_stop_set_enabled L v sec (some (dgetD p "DATE" "")) L
  have hstop2 := find_stop_set_enabled L v sec none L
  simp only [record_window, hact, hty, htm, hdt, hdw, hstop1, hstop2]

/-- The window-match query over a schedule list with every record's
`ENABLED` flag rewritten, restricted to scanning `rest`, agrees with the
original query over `rest`. -/
theorem findSome_window_set_enabled (L : List (String × Dict)) (v : String)
    (now : Clock) (rest : List (String × Dict)) :
    (set_enabled_all v rest).findSome?
      (fun q => record_window (set_enabled_all v L) now q.1 q.2) =
    rest.findSome? (fun q => record_window L now q.1 q.2) := by
  induction rest with
  | nil => rfl
  | cons hd tl ih =>
    obtain ⟨sec0, p0⟩ := hd
    have hstep := record_window_set_enabled L v now sec0 p0
    simp only [set_enabled_all, List.map, List.findSome?] at hstep ih ⊢
    rw [hstep]
    cases record_window L now sec0 p0 with
    | none => exact ih
    | some w => rfl

/-- C5 (amended): a start record of type one-time is reported in window by
the window-match query exactly when its date equals today, its time-of-day
is ≤ the current minute, AND the corresponding stop lookup (first stop
record with the same date) returns a nonempty time strictly greater than
now — in particular, when no corresponding stop record exists the record
is NOT in window; and the query ignores the `ENABLED` flag of every
record. -/
theorem claim_C5 :
    (∀ (all : List (String × Dict)) (now : Clock) (sec : String) (p : Dict),
      pyToLower (dgetD p "TYPE" "") = "one-time" →
      pyToLower (dgetD p "ACTION" "") = "start" →
      ((∃ w, record_window all now sec p = some w) ↔
        (dgetD p "DATE" "" = now.date ∧
         pyStrLe (dgetD p "TIME" "") now.hm = true ∧
         ∃ st, find_corresponding_stop all sec (some (dgetD p "DATE" "")) all =
             some st ∧ st ≠ "" ∧ pyStrLt now.hm st = true))) ∧
    (∀ (L : List (String × Dict)) (now : Clock) (v : String),
      should_simulation_be_active_now (set_enabled_all v L) now =
        should_simulation_be_active_now L now) := by
  constructor
  · intro all now sec p htype haction
    by_cases hdate : dgetD p "DATE" "" = now.date
    · by_cases htime : pyStrLe (dgetD p "TIME" "") now.hm = true
      · rcases hstop : find_corresponding_stop all sec
            (some (dgetD p "DATE" "")) all with _ | st <;> rw [hdate] at hstop
        · simp [record_window, htype, haction, hdate, htime, hstop]
        · by_cases hne : st = ""
          · simp [record_window, htype, haction, hdate, htime, hstop, hne]
          · by_cases hlt : pyStrLt now.hm st = true
            · simp [record_window, htype, haction, hdate, htime, hstop, hne, hlt]
            · simp [record_window, htype, haction, hdate, htime, hstop, hne, hlt]
      · simp [record_window, htype, haction, hdate, htime]
    · simp [record_window, htype, haction, hdate]
  · intro L now v
    unfold should_simulation_be_active_now
    exact findSome_window_set_enabled L v now L

/-- Counterexample for C5 as stated: a one-time start record whose date is
today and whose time has passed, with NO corresponding stop record — the
claim says it is in window, but the query reports no active window. -/
theorem claim_C5_cex :
    (pyToLower (dgetD [("TYPE", "one-time"), ("ACTION", "start"),
        ("ENABLED", "false"), ("DATE", "2026-02-03"), ("TIME", "08:00")]
        "TYPE" "") = "one-time" ∧
     pyToLower (dgetD [("TYPE", "one-time"), ("ACTION", "start"),
        ("ENABLED", "false"), ("DATE", "2026-02-03"), ("TIME", "08:00")]
        "ACTION" "") = "start" ∧
     dgetD [("TYPE", "one-time"), ("ACTION", "start"), ("ENABLED", "false"),
        ("DATE", "2026-02-03"), ("TIME", "08:00")] "DATE" "" = "2026-02-03" ∧
     pyStrLe (dgetD [("TYPE", "one-time"), ("ACTION", "start"),
        ("ENABLED", "false"), ("DATE", "2026-02-03"), ("TIME", "08:00")]
        "TIME" "") "10:00" = true ∧
     find_corresponding_stop
       [("SCHEDULE_1", [("TYPE", "one-time"), ("ACTION", "start"),
          ("ENABLED", "false"), ("DATE", "2026-02-03"), ("TIME", "08:00")])]
       "SCHEDULE_1" (some "2026-02-03")
       [("SCHEDULE_1", [("TYPE", "one-time"), ("ACTION", "start"),
          ("ENABLED", "false"), ("DATE", "2026-02-03"), ("TIME", "08:00")])] =
       none) ∧
    should_simulation_be_active_now
      [("SCHEDULE_1", [("TYPE", "one-time"), ("ACTION", "start"),
         ("ENABLED", "false"), ("DATE", "2026-02-03"), ("TIME", "08:00")])]
      ⟨"2026-02-03", "10:00", "tuesday", 1000⟩ = none := by
  constructor
  · exact ⟨by decide, by decide, by decide, by decide, by decide⟩
  · decide

/-- Witness for C5: a one-time start with a later stop on the same date is
in window at 10:00. -/
theorem claim_C5_witness :
    (pyToLower (dgetD [("TYPE", "one-time"), ("ACTION", "start"),
        ("DATE", "2026-02-03"), ("TIME", "08:00")] "TYPE" "") = "one-time" ∧
     pyToLower (dgetD [("TYPE", "one-time"), ("ACTION", "start"),
        ("DATE", "2026-02-03"), ("TIME", "08:00")] "ACTION" "") = "start") ∧
    ((∃ w, record_window
        [("SCHEDULE_1", [("TYPE", "one-time"), ("ACTION", "start"),
           ("DATE", "2026-02-03"), ("TIME", "08:00")]),
         ("SCHEDULE_2", [("TYPE", "one-time"), ("ACTION", "stop"),
           ("DATE", "2026-02-03"), ("TIME", "20:00")])]
        ⟨"2026-02-03", "10:00", "tuesday", 1000⟩ "SCHEDULE_1"
        [("TYPE", "one-time"), ("ACTION", "start"),
         ("DATE", "2026-02-03"), ("TIME", "08:00")] = some w) ↔
      (dgetD [("TYPE", "one-time"), ("ACTION", "start"),
         ("DATE", "2026-02-03"), ("TIME", "08:00")] "DATE" "" = "2026-02-03" ∧
       pyStrLe (dgetD [("TYPE", "one-time"), ("ACTION", "start"),
         ("DATE", "2026-02-03"), ("TIME", "08:00")] "TIME" "") "10:00" = true ∧
       ∃ st, find_corresponding_stop
           [("SCHEDULE_1", [("TYPE", "one-time"), ("ACTION", "start"),
              ("DATE", "2026-02-03"), ("TIME", "08:00")]),
            ("SCHEDULE_2", [("TYPE", "one-time"), ("ACTION", "stop"),
              ("DATE", "2026-02-03"), ("TIME", "20:00")])]
           "SCHEDULE_1"
           (some (dgetD [("TYPE", "one-time"), ("ACTION", "start"),
              ("DATE", "2026-02-03"), ("TIME", "08:00")] "DATE" ""))
           [("SCHEDULE_1", [("TYPE", "one-time"), ("ACTION", "start"),
              ("DATE", "2026-02-03"), ("TIME", "08:00")]),
            ("SCHEDULE_2", [("TYPE", "one-time"), ("ACTION", "stop"),
              ("DATE", "2026-02-03"), ("TIME", "20:00")])] = some st ∧
         st ≠ "" ∧ pyStrLt "10:00" st = true)) :=
  ⟨⟨by decide, by decide⟩,
    claim_C5.1
      [("SCHEDULE_1", [("TYPE", "one-time"), ("ACTION", "start"),
         ("DATE", "2026-02-03"), ("TIME", "08:00")]),
       ("SCHEDULE_2", [("TYPE", "one-time"), ("ACTION", "stop"),
         ("DATE", "2026-02-03"), ("TIME", "20:00")])]
      ⟨"2026-02-03", "10:00", "tuesday", 1000⟩ "SCHEDULE_1"
      [("TYPE", "one-time"), ("ACTION", "start"),
       ("DATE", "2026-02-03"), ("TIME", "08:00")] (by decide) (by decide)⟩


/-! ### Engine lemmas -/

theorem check_schedules_no_fire (now : Clock) (d : String → Bool) (s : Sys)
    (L : List (String × Dict)) (h : ∀ q ∈ L, sched_fires now q.2 = false) :
    check_schedules_go now d s L = (s, [], []) := by
  induction L with
  | nil => rfl
  | cons hd tl ih =>
    obtain ⟨sec, p⟩ := hd
    rw [check_schedules_go]
    rw [h (sec, p) (List.mem_cons_self _ _)]
    simp only [Bool.false_eq_true, if_false]
    exact ih (fun q hq => h q (List.mem_cons_of_mem _ hq))

theorem determine_offline_all (now : Clock) (reach : String → Bool)
    (pm : PMem) (s : Sys)
    (hsim : cfg_flag s.config "POWER_SIMULATION_MODE" "false" = true)
    (hne : sentinel_hosts s.config ≠ [])
    (hreach : ∀ ip ∈ sentinel_hosts s.config, reach ip = false) :
    determine_power_status now reach pm s =
      ("OFFLINE",
       (match should_simulation_be_active_now s.schedules now with
        | some w =>
          { pm with sim_interrupted := true,
                    interrupted_info := some
                      { schedule := w.schedule, end_time := w.end_time,
                        interrupted_at := now.date ++ " " ++ now.hm } }
        | none => pm),
       { s with config := aset s.config "POWER_SIMULATION_MODE" "false" }) := by
  have hne' : (sentinel_hosts s.config).isEmpty = false := by
    simpa [List.isEmpty_iff] using hne
  have hfe : (sentinel_hosts s.config).filter reach = [] :=
    List.filter_eq_nil.mpr (fun a ha => by simp [hreach a ha])
  simp [determine_power_status, hne', hfe, hsim]

theorem determine_sim_online (now : Clock) (reach : String → Bool)
    (pm : PMem) (s : Sys)
    (hsim : cfg_flag s.config "POWER_SIMULATION_MODE" "false" = true)
    (hne : sentinel_hosts s.config ≠ [])
    (hex : ∃ h ∈ sentinel_hosts s.config, reach h = true) :
    determine_power_status now reach pm s = ("OFFLINE", pm, s) := by
  have hne' : (sentinel_hosts s.config).isEmpty = false := by
    simpa [List.isEmpty_iff] using hne
  obtain ⟨a, ham, hat⟩ := hex
  have hmem : a ∈ (sentinel_hosts s.config).filter reach :=
    List.mem_filter.mpr ⟨ham, hat⟩
  rcases hfe : (sentinel_hosts s.config).filter reach with _ | ⟨b, bs⟩
  · rw [hfe] at hmem
    cases hmem
  · simp [determine_power_status, hne', hfe, hsim]

theorem determine_power_state (now : Clock) (reach : String → Bool)
    (pm : PMem) (s : Sys) :
    ((determine_power_status now reach pm s).2.1).power_state =
      pm.power_state := by
  rw [determine_power_status]
  dsimp only
  repeat' split
  all_goals rfl

theorem client_statuses_frame (now : Clock) (d : String → Bool)
    (pm : PMem) (s : Sys) :
    (check_client_statuses now d pm s).2.1.state_file = s.state_file ∧
    (check_client_statuses now d pm s).2.1.config = s.config ∧
    (check_client_statuses now d pm s).2.1.ups_file = s.ups_file := by
  simp [check_client_statuses]

theorem countPF_append (a b : List Event) :
    countPF (a ++ b) = countPF a + countPF b := List.countP_append _ _ _

theorem countPF_client_shutdown (cfg : Dict) (d : String → Bool) (t : Int)
    (subj : String) (deb : List (String × Int)) :
    countPF (notifier_send cfg d t "CLIENT_SHUTDOWN" subj deb).2 = 0 :=
  countPF_notifier cfg d t "CLIENT_SHUTDOWN" subj deb (by decide) (by decide)

theorem countPF_client_stale (cfg : Dict) (d : String → Bool) (t : Int)
    (subj : String) (deb : List (String × Int)) :
    countPF (notifier_send cfg d t "CLIENT_STALE" subj deb).2 = 0 :=
  countPF_notifier cfg d t "CLIENT_STALE" subj deb (by decide) (by decide)

theorem client_step_countPF (now : Clock) (d : String → Bool) (cfg : Dict)
    (statuses : List (String × CStat)) (m : Int) (acc : ClientAcc)
    (h : String × Dict) :
    countPF (client_host_step now d cfg statuses m acc h).events =
      countPF acc.events := by
  rw [client_host_step]
  dsimp only
  repeat' split
  all_goals
    simp [countPF_append, countPF_client_shutdown, countPF_client_stale]

theorem client_fold_countPF (now : Clock) (d : String → Bool) (cfg : Dict)
    (statuses : List (String × CStat)) (m : Int) :
    ∀ (L : List (String × Dict)) (acc : ClientAcc),
      countPF ((L.foldl (client_host_step now d cfg statuses m) acc).events) =
        countPF acc.events := by
  intro L
  induction L with
  | nil => intro acc; rfl
  | cons hd tl ih =>
    intro acc
    rw [List.foldl_cons, ih]
    exact client_step_countPF now d cfg statuses m acc hd

theorem client_countPF (now : Clock) (d : String → Bool) (pm : PMem)
    (s : Sys) : countPF (check_client_statuses now d pm s).2.2 = 0 := by
  rw [check_client_statuses]
  simp only []
  rw [client_fold_countPF]
  rfl

theorem offline_steady (now : Clock) (d : String → Bool) (pm : PMem) (s : Sys)
    (h : pm.power_state = some "POWER_FAIL") :
    handle_power_offline now d pm s =
      (pm,
       if pm.sim_interrupted then
         { s with
           state_file := some (mk_power_state_rec now s.config pm "POWER_FAIL"),
           ups_file := "ups.status: OB LB" }
       else { s with ups_file := "ups.status: OB LB" },
       []) := by
  have hb : (pm.power_state != some "POWER_FAIL") = false := by
    simp [bne, h]
  rw [handle_power_offline]
  rw [hb]
  simp only [Bool.false_eq_true, if_false, Bool.false_or]
  by_cases hsi : pm.sim_interrupted <;> simp [hsi]

theorem offline_trans (now : Clock) (d : String → Bool) (pm : PMem) (s : Sys)
    (h : pm.power_state ≠ some "POWER_FAIL") :
    handle_power_offline now d pm s =
      ({ pm with client_states := [] },
       { s with client_notif_file := [],
                debounce_file :=
                  (if cfg_flag s.config "POWER_SIMULATION_MODE" "false" then
                    notifier_send s.config d now.ts "SIMULATION_MODE"
                      "[UPS] INFO: Power Outage Simulation Active"
                      s.debounce_file
                  else
                    notifier_send s.config d now.ts "POWER_FAIL"
                      "[UPS] ALERT: Power Outage Detected" s.debounce_file).1,
                state_file := some (mk_power_state_rec now s.config
                  { pm with client_states := [] } "POWER_FAIL"),
                ups_file := "ups.status: OB LB" },
       (if cfg_flag s.config "POWER_SIMULATION_MODE" "false" then
          notifier_send s.config d now.ts "SIMULATION_MODE"
            "[UPS] INFO: Power Outage Simulation Active" s.debounce_file
        else
          notifier_send s.config d now.ts "POWER_FAIL"
            "[UPS] ALERT: Power Outage Detected" s.debounce_file).2) := by
  have hb : (pm.power_state != some "POWER_FAIL") = true := by
    simp [bne, h]
  rw [handle_power_offline]
  rw [hb]
  by_cases hsim : cfg_flag s.config "POWER_SIMULATION_MODE" "false" <;>
    simp [hsim]

theorem online_ups (now : Clock) (d reach wolOk : String → Bool)
    (pm : PMem) (s : Sys) :
    (handle_power_online now d reach wolOk pm s).2.1.ups_file =
      "ups.status: OL" := by
  rw [handle_power_online, initiate_wol]
  dsimp only
  repeat' split
  all_goals rfl


theorem determine_offline_nosim (now : Clock) (reach : String → Bool)
    (pm : PMem) (s : Sys)
    (hsim : cfg_flag s.config "POWER_SIMULATION_MODE" "false" = false)
    (hne : sentinel_hosts s.config ≠ [])
    (hreach : ∀ ip ∈ sentinel_hosts s.config, reach ip = false) :
    determine_power_status now reach pm s = ("OFFLINE", pm, s) := by
  have hne' : (sentinel_hosts s.config).isEmpty = false := by
    simpa [List.isEmpty_iff] using hne
  have hfe : (sentinel_hosts s.config).filter reach = [] :=
    List.filter_eq_nil.mpr (fun a ha => by simp [hreach a ha])
  simp [determine_power_status, hne', hfe, hsim]

theorem sentinel_aset_sim (cfg : Dict) (v : String) :
    sentinel_hosts (aset cfg "POWER_SIMULATION_MODE" v) = sentinel_hosts cfg := by
  unfold sentinel_hosts dgetD
  rw [aget_aset_ne cfg "POWER_SIMULATION_MODE" "SENTINEL_HOSTS" v (by decide)]

theorem notify_enabled_aset_sim (cfg : Dict) (v nty : String) :
    notify_enabled (aset cfg "POWER_SIMULATION_MODE" v) nty =
      notify_enabled cfg nty := by
  unfold notify_enabled cfg_flag dgetD
  rw [aget_aset_ne cfg "POWER_SIMULATION_MODE" ("NOTIFY_" ++ pyToUpper nty) v]
  intro he
  have hd := congrArg String.data he
  rw [String.data_append] at hd
  have h1 : String.data "NOTIFY_" = ['N', 'O', 'T', 'I', 'F', 'Y', '_'] := by
    decide
  rw [h1] at hd
  have h2 : (['N', 'O', 'T', 'I', 'F', 'Y', '_'] ++ (pyToUpper nty).data).head? =
      some 'N' := rfl
  rw [hd] at h2
  have h3 : (String.data "POWER_SIMULATION_MODE").head? = some 'P' := by decide
  rw [h3] at h2
  exact absurd h2 (by decide)

/-- `run_cycle` composed through the offline branch: when the schedule
check does nothing, the status computes `OFFLINE`, and the loaded state is
not `POWER_RESTORED_SIM`, the cycle is the offline handler followed by the
client checks. -/
theorem run_cycle_via_offline (env : Env) (s : Sys) (pmd : PMem) (sd : Sys)
    (hsched : env.check_scheds = true →
      ∀ q ∈ s.schedules, sched_fires env.now q.2 = false)
    (hdet : determine_power_status env.now env.reach (load_state s) s =
      ("OFFLINE", pmd, sd))
    (hprs : pmd.power_state ≠ some "POWER_RESTORED_SIM") :
    run_cycle env s =
      ({ (check_client_statuses env.now env.deliver
            (handle_power_offline env.now env.deliver pmd sd).1
            (handle_power_offline env.now env.deliver pmd sd).2.1).2.1 with
          client_notif_file :=
            (check_client_statuses env.now env.deliver
              (handle_power_offline env.now env.deliver pmd sd).1
              (handle_power_offline env.now env.deliver pmd sd).2.1).1.client_states },
       (handle_power_offline env.now env.deliver pmd sd).2.2 ++
         (check_client_statuses env.now env.deliver
           (handle_power_offline env.now env.deliver pmd sd).1
           (handle_power_offline env.now env.deliver pmd sd).2.1).2.2) := by
  have hb : (pmd.power_state == some "POWER_RESTORED_SIM") = false := by
    simpa using hprs
  have hstep1 : (if env.check_scheds then
      ((check_schedules env.now env.deliver s).1,
        (check_schedules env.now env.deliver s).2.1)
    else (s, ([] : List Event))) = (s, ([] : List Event)) := by
    cases hc : env.check_scheds
    · rfl
    · unfold check_schedules
      rw [check_schedules_no_fire env.now env.deliver s s.schedules (hsched hc)]
      rfl
  rw [run_cycle]
  try dsimp only
  rw [hstep1]
  try dsimp only
  rw [hdet]
  try dsimp only
  rw [hb]
  try dsimp only
  rfl

/-- `run_cycle` when the loaded state is `POWER_RESTORED_SIM`: the online
handler runs regardless of the computed status. -/
theorem run_cycle_via_prs (env : Env) (s : Sys) (st : String) (pmd : PMem)
    (sd : Sys)
    (hsched : env.check_scheds = true →
      ∀ q ∈ s.schedules, sched_fires env.now q.2 = false)
    (hdet : determine_power_status env.now env.reach (load_state s) s =
      (st, pmd, sd))
    (hprs : pmd.power_state = some "POWER_RESTORED_SIM") :
    run_cycle env s =
      ({ (check_client_statuses env.now env.deliver
            (handle_power_online env.now env.deliver env.reach env.wolOk pmd sd).1
            (handle_power_online env.now env.deliver env.reach env.wolOk pmd sd).2.1).2.1 with
          client_notif_file :=
            (check_client_statuses env.now env.deliver
              (handle_power_online env.now env.deliver env.reach env.wolOk pmd sd).1
              (handle_power_online env.now env.deliver env.reach env.wolOk pmd sd).2.1).1.client_states },
       (handle_power_online env.now env.deliver env.reach env.wolOk pmd sd).2.2 ++
         (check_client_statuses env.now env.deliver
           (handle_power_online env.now env.deliver env.reach env.wolOk pmd sd).1
           (handle_power_online env.now env.deliver env.reach env.wolOk pmd sd).2.1).2.2) := by
  have hb : (pmd.power_state == some "POWER_RESTORED_SIM") = true := by
    simpa using hprs
  have hstep1 : (if env.check_scheds then
      ((check_schedules env.now env.deliver s).1,
        (check_schedules env.now env.deliver s).2.1)
    else (s, ([] : List Event))) = (s, ([] : List Event)) := by
    cases hc : env.check_scheds
    · rfl
    · unfold check_schedules
      rw [check_schedules_no_fire env.now env.deliver s s.schedules (hsched hc)]
      rfl
  rw [run_cycle]
  try dsimp only
  rw [hstep1]
  try dsimp only
  rw [hdet]
  try dsimp only
  rw [hb]
  try dsimp only
  rfl


/-- C1 (amended): for a cycle in which the exact-match schedule check does
not execute any schedule, at least one sentinel is configured, the
simulation flag is ON, every sentinel is unreachable, and the persisted
state is not `POWER_RESTORED_SIM`, after the cycle the simulation flag is
OFF in the config store, the persisted state is `POWER_FAIL`, and — when
the window-match query reports an active window — the persisted
interruption metadata references that schedule, its end time, and the
interruption timestamp; the simulation flag is forced off even when no
active window is found. -/
theorem claim_C1 (env : Env) (s : Sys)
    (hsim : cfg_flag s.config "POWER_SIMULATION_MODE" "false" = true)
    (hsent : sentinel_hosts s.config ≠ [])
    (hreach : ∀ ip, env.reach ip = false)
    (hsched : env.check_scheds = true →
      ∀ q ∈ s.schedules, sched_fires env.now q.2 = false)
    (hstate : (s.state_file.map (·.state)) ≠ some "POWER_RESTORED_SIM") :
    aget? (run_cycle env s).1.config "POWER_SIMULATION_MODE" = some "false" ∧
    ((run_cycle env s).1.state_file.map (·.state)) = some "POWER_FAIL" ∧
    (∀ w, should_simulation_be_active_now s.schedules env.now = some w →
      ∃ r, (run_cycle env s).1.state_file = some r ∧
        r.sim_interrupted = true ∧
        r.interrupted_schedule = some
          { schedule := w.schedule, end_time := w.end_time,
            interrupted_at := env.now.date ++ " " ++ env.now.hm }) := by
  have hload : (load_state s).power_state = s.state_file.map (·.state) := rfl
  have hdet := determine_offline_all env.now env.reach (load_state s) s hsim
    hsent (fun ip _ => hreach ip)
  rcases hW : should_simulation_be_active_now s.schedules env.now with _ | w
  all_goals rw [hW] at hdet
  -- window inactive
  · have hdet2 : determine_power_status env.now env.reach (load_state s) s =
        ("OFFLINE", load_state s,
         { s with config := aset s.config "POWER_SIMULATION_MODE" "false" }) :=
      hdet
    have hprs : ((load_state s).power_state) ≠ some "POWER_RESTORED_SIM" := by
      rw [hload]; exact hstate
    rw [run_cycle_via_offline env s _ _ hsched hdet2 hprs]
    by_cases hpf : (load_state s).power_state = some "POWER_FAIL"
    · rw [offline_steady env.now env.deliver _ _ hpf]
      refine ⟨?_, ?_, ?_⟩
      · by_cases hsi : (load_state s).sim_interrupted <;>
          simp [hsi, (client_statuses_frame env.now env.deliver _ _).2.1,
            aget_aset_self]
      · by_cases hsi : (load_state s).sim_interrupted
        · simp only [hsi, if_true]
          simp [(client_statuses_frame env.now env.deliver _ _).1,
            mk_power_state_rec]
        · simp only [hsi, Bool.false_eq_true, if_false]
          simp only [(client_statuses_frame env.now env.deliver _ _).1]
          rw [hload] at hpf
          simpa using hpf
      · intro w2 hw2
        exact Option.noConfusion hw2
    · rw [offline_trans env.now env.deliver _ _ hpf]
      refine ⟨?_, ?_, ?_⟩
      · simp [(client_statuses_frame env.now env.deliver _ _).2.1, aget_aset_self]
      · simp [(client_statuses_frame env.now env.deliver _ _).1, mk_power_state_rec]
      · intro w2 hw2
        exact Option.noConfusion hw2
  -- window active
  · set info : InterruptInfo := { schedule := w.schedule, end_time := w.end_time, interrupted_at := env.now.date ++ " " ++ env.now.hm } with hinfo
    set pmI : PMem := { load_state s with sim_interrupted := true, interrupted_info := some info } with hpmI
    have hps : pmI.power_state = s.state_file.map (·.state) := by
      rw [hpmI]; rfl
    have hprs : pmI.power_state ≠ some "POWER_RESTORED_SIM" := by
      rw [hps]; exact hstate
    have hsi : pmI.sim_interrupted = true := by rw [hpmI]
    have hii : pmI.interrupted_info = some info := by rw [hpmI]
    have hdet2 : determine_power_status env.now env.reach (load_state s) s =
        ("OFFLINE", pmI,
         { s with config := aset s.config "POWER_SIMULATION_MODE" "false" }) := by
      rw [hpmI, hinfo]
      exact hdet
    rw [run_cycle_via_offline env s _ _ hsched hdet2 hprs]
    by_cases hpf : pmI.power_state = some "POWER_FAIL"
    · rw [offline_steady env.now env.deliver _ _ hpf]
      rw [hsi]
      refine ⟨?_, ?_, ?_⟩
      · simp [(client_statuses_frame env.now env.deliver _ _).2.1, aget_aset_self]
      · simp [(client_statuses_frame env.now env.deliver _ _).1, mk_power_state_rec]
      · intro w2 hw2
        cases hw2
        exact ⟨_,
          by simp only [(client_statuses_frame env.now env.deliver _ _).1]; rfl,
          by simp [mk_power_state_rec, hsi],
          by simp [mk_power_state_rec, hii, hinfo]⟩
    · rw [offline_trans env.now env.deliver _ _ hpf]
      refine ⟨?_, ?_, ?_⟩
      · simp [(client_statuses_frame env.now env.deliver _ _).2.1, aget_aset_self]
      · simp [(client_statuses_frame env.now env.deliver _ _).1, mk_power_state_rec]
      · intro w2 hw2
        cases hw2
        exact ⟨_,
          by simp only [(client_statuses_frame env.now env.deliver _ _).1]; rfl,
          by simp [mk_power_state_rec, hsi],
          by simp [mk_power_state_rec, hii, hinfo]⟩


/-- Counterexample for C1 as stated: a cycle that starts with the
simulation flag ON, an active schedule window, and every configured
sentinel unreachable, but whose persisted state is `POWER_RESTORED_SIM` —
after the cycle the persisted state is still `POWER_RESTORED_SIM`, not
`POWER_FAIL` (the run loop checks that state before branching on the
status, so `_handle_power_offline` never runs). -/
theorem claim_C1_cex :
    (cfg_flag [("POWER_SIMULATION_MODE", "true"), ("SENTINEL_HOSTS", "10.0.0.1")]
       "POWER_SIMULATION_MODE" "false" = true ∧
     sentinel_hosts [("POWER_SIMULATION_MODE", "true"),
       ("SENTINEL_HOSTS", "10.0.0.1")] ≠ [] ∧
     (∀ ip ∈ sentinel_hosts [("POWER_SIMULATION_MODE", "true"),
        ("SENTINEL_HOSTS", "10.0.0.1")], (fun (_ : String) => false) ip = false) ∧
     should_simulation_be_active_now
       [("SCHEDULE_1", [("TYPE", "one-time"), ("ACTION", "start"),
          ("ENABLED", "false"), ("DATE", "2026-02-03"), ("TIME", "08:00")]),
        ("SCHEDULE_2", [("TYPE", "one-time"), ("ACTION", "stop"),
          ("ENABLED", "true"), ("DATE", "2026-02-03"), ("TIME", "20:00")])]
       ⟨"2026-02-03", "10:00", "tuesday", 1060⟩ = some ⟨"SCHEDULE_1", "20:00"⟩) ∧
    ((run_cycle
        ⟨⟨"2026-02-03", "10:00", "tuesday", 1060⟩, fun _ => false, fun _ => true,
         fun _ => true, false⟩
        ⟨[("POWER_SIMULATION_MODE", "true"), ("SENTINEL_HOSTS", "10.0.0.1")],
         [("SCHEDULE_1", [("TYPE", "one-time"), ("ACTION", "start"),
            ("ENABLED", "false"), ("DATE", "2026-02-03"), ("TIME", "08:00")]),
          ("SCHEDULE_2", [("TYPE", "one-time"), ("ACTION", "stop"),
            ("ENABLED", "true"), ("DATE", "2026-02-03"), ("TIME", "20:00")])],
         [],
         some ⟨"POWER_RESTORED_SIM", 1000, true, true,
           some ⟨"SCHEDULE_1", "20:00", "2026-02-03 09:00"⟩⟩,
         [], [], [], "x"⟩).1.state_file.map (·.state)) ≠ some "POWER_FAIL" := by
  constructor
  · exact ⟨by decide, by decide, by decide, by decide⟩
  · decide

/-- Witness for C1: the amended interruption law at a concrete cycle whose
prior state is a plain `POWER_FAIL`. -/
theorem claim_C1_witness :
    (cfg_flag [("POWER_SIMULATION_MODE", "true"), ("SENTINEL_HOSTS", "10.0.0.1")]
       "POWER_SIMULATION_MODE" "false" = true ∧
     sentinel_hosts [("POWER_SIMULATION_MODE", "true"),
       ("SENTINEL_HOSTS", "10.0.0.1")] ≠ []) ∧
    (aget? (run_cycle
        ⟨⟨"2026-02-03", "10:00", "tuesday", 1060⟩, fun _ => false, fun _ => true,
         fun _ => true, false⟩
        ⟨[("POWER_SIMULATION_MODE", "true"), ("SENTINEL_HOSTS", "10.0.0.1")],
         [("SCHEDULE_1", [("TYPE", "one-time"), ("ACTION", "start"),
            ("ENABLED", "false"), ("DATE", "2026-02-03"), ("TIME", "08:00")]),
          ("SCHEDULE_2", [("TYPE", "one-time"), ("ACTION", "stop"),
            ("ENABLED", "true"), ("DATE", "2026-02-03"), ("TIME", "20:00")])],
         [], none, [], [], [], "x"⟩).1.config "POWER_SIMULATION_MODE" =
       some "false" ∧
     ((run_cycle
        ⟨⟨"2026-02-03", "10:00", "tuesday", 1060⟩, fun _ => false, fun _ => true,
         fun _ => true, false⟩
        ⟨[("POWER_SIMULATION_MODE", "true"), ("SENTINEL_HOSTS", "10.0.0.1")],
         [("SCHEDULE_1", [("TYPE", "one-time"), ("ACTION", "start"),
            ("ENABLED", "false"), ("DATE", "2026-02-03"), ("TIME", "08:00")]),
          ("SCHEDULE_2", [("TYPE", "one-time"), ("ACTION", "stop"),
            ("ENABLED", "true"), ("DATE", "2026-02-03"), ("TIME", "20:00")])],
         [], none, [], [], [], "x"⟩).1.state_file.map (·.state)) =
       some "POWER_FAIL" ∧
     (∀ w, should_simulation_be_active_now
        [("SCHEDULE_1", [("TYPE", "one-time"), ("ACTION", "start"),
           ("ENABLED", "false"), ("DATE", "2026-02-03"), ("TIME", "08:00")]),
         ("SCHEDULE_2", [("TYPE", "one-time"), ("ACTION", "stop"),
           ("ENABLED", "true"), ("DATE", "2026-02-03"), ("TIME", "20:00")])]
        ⟨"2026-02-03", "10:00", "tuesday", 1060⟩ = some w →
       ∃ r, (run_cycle
          ⟨⟨"2026-02-03", "10:00", "tuesday", 1060⟩, fun _ => false,
           fun _ => true, fun _ => true, false⟩
          ⟨[("POWER_SIMULATION_MODE", "true"), ("SENTINEL_HOSTS", "10.0.0.1")],
           [("SCHEDULE_1", [("TYPE", "one-time"), ("ACTION", "start"),
              ("ENABLED", "false"), ("DATE", "2026-02-03"), ("TIME", "08:00")]),
            ("SCHEDULE_2", [("TYPE", "one-time"), ("ACTION", "stop"),
              ("ENABLED", "true"), ("DATE", "2026-02-03"), ("TIME", "20:00")])],
           [], none, [], [], [], "x"⟩).1.state_file = some r ∧
         r.sim_interrupted = true ∧
         r.interrupted_schedule = some
           { schedule := w.schedule, end_time := w.end_time,
             interrupted_at := "2026-02-03" ++ " " ++ "10:00" })) :=
  ⟨⟨by decide, by decide⟩,
    claim_C1
      ⟨⟨"2026-02-03", "10:00", "tuesday", 1060⟩, fun _ => false, fun _ => true,
       fun _ => true, false⟩
      ⟨[("POWER_SIMULATION_MODE", "true"), ("SENTINEL_HOSTS", "10.0.0.1")],
       [("SCHEDULE_1", [("TYPE", "one-time"), ("ACTION", "start"),
          ("ENABLED", "false"), ("DATE", "2026-02-03"), ("TIME", "08:00")]),
        ("SCHEDULE_2", [("TYPE", "one-time"), ("ACTION", "stop"),
          ("ENABLED", "true"), ("DATE", "2026-02-03"), ("TIME", "20:00")])],
       [], none, [], [], [], "x"⟩
      (by decide) (by decide) (fun _ => rfl)
      (fun h => absurd h (by decide)) (by decide)⟩


theorem client_step_empty (now : Clock) (d : String → Bool) (cfg : Dict)
    (m : Int) (acc : ClientAcc) (h : String × Dict) :
    client_host_step now d cfg [] m acc h = acc := by
  rw [client_host_step]
  dsimp only
  split_ifs <;> rfl

theorem client_empty (now : Clock) (d : String → Bool) (pm : PMem) (s : Sys)
    (h : s.client_status_file = []) :
    check_client_statuses now d pm s = (pm, s, []) := by
  obtain ⟨c1, c2, c3, c4, c5, c6, c7, c8⟩ := s
  dsimp only at h
  subst h
  rw [check_client_statuses]
  have hfold : ∀ (L : List (String × Dict)) (acc : ClientAcc),
      L.foldl (client_host_step now d c1 []
        (get_int_d c1 "CLIENT_STALE_TIMEOUT_MINUTES" 5)) acc = acc := by
    intro L
    induction L with
    | nil => intro acc; rfl
    | cons hd tl ih =>
      intro acc
      rw [List.foldl_cons, client_step_empty]
      exact ih acc
  dsimp only
  rw [hfold]

theorem cfg_flag_aset_false (cfg : Dict) :
    cfg_flag (aset cfg "POWER_SIMULATION_MODE" "false")
      "POWER_SIMULATION_MODE" "false" = false := by
  simp only [cfg_flag, dgetD, aget_aset_self]
  decide

/-- A cycle whose loaded state is already `POWER_FAIL`, with all sentinels
unreachable and no schedule firing, sends no power-fail or simulation
notification, rewrites the UPS file to the on-battery line, keeps the
persisted state at `POWER_FAIL`, and leaves the sentinel list unchanged. -/
theorem steady_cycle (env : Env) (s : Sys) (r : StateRec)
    (h1 : s.state_file = some r) (h2 : r.state = "POWER_FAIL")
    (hsent : sentinel_hosts s.config ≠ [])
    (hreach : ∀ ip, env.reach ip = false)
    (hsched : env.check_scheds = true →
      ∀ q ∈ s.schedules, sched_fires env.now q.2 = false) :
    countPF (run_cycle env s).2 = 0 ∧
    (run_cycle env s).1.ups_file = "ups.status: OB LB" ∧
    (∃ r2, (run_cycle env s).1.state_file = some r2 ∧ r2.state = "POWER_FAIL") ∧
    sentinel_hosts (run_cycle env s).1.config = sentinel_hosts s.config := by
  have hpf : (load_state s).power_state = some "POWER_FAIL" := by
    simp [load_state, h1, h2]
  have hprs : (load_state s).power_state ≠ some "POWER_RESTORED_SIM" := by
    rw [hpf]
    simp
  by_cases hsim : cfg_flag s.config "POWER_SIMULATION_MODE" "false"
  · have hdet := determine_offline_all env.now env.reach (load_state s) s hsim
      hsent (fun ip _ => hreach ip)
    rcases hW : should_simulation_be_active_now s.schedules env.now with _ | w
    all_goals rw [hW] at hdet
    · have hdet2 : determine_power_status env.now env.reach (load_state s) s =
          ("OFFLINE", load_state s,
           { s with config := aset s.config "POWER_SIMULATION_MODE" "false" }) :=
        hdet
      rw [run_cycle_via_offline env s _ _ hsched hdet2 hprs]
      rw [offline_steady env.now env.deliver _ _ hpf]
      by_cases hsi : (load_state s).sim_interrupted <;>
        simp [hsi, countPF_append, client_countPF,
          (client_statuses_frame env.now env.deliver _ _).1,
          (client_statuses_frame env.now env.deliver _ _).2.1,
          (client_statuses_frame env.now env.deliver _ _).2.2,
          sentinel_aset_sim, mk_power_state_rec, h1, h2]
    · set info : InterruptInfo := { schedule := w.schedule, end_time := w.end_time, interrupted_at := env.now.date ++ " " ++ env.now.hm } with hinfo
      set pmI : PMem := { load_state s with sim_interrupted := true, interrupted_info := some info } with hpmI
      have hpfI : pmI.power_state = some "POWER_FAIL" := by
        rw [hpmI]; exact hpf
      have hprsI : pmI.power_state ≠ some "POWER_RESTORED_SIM" := by
        rw [hpfI]; simp
      have hsiI : pmI.sim_interrupted = true := by rw [hpmI]
      have hdet2 : determine_power_status env.now env.reach (load_state s) s =
          ("OFFLINE", pmI,
           { s with config := aset s.config "POWER_SIMULATION_MODE" "false" }) := by
        rw [hpmI, hinfo]
        exact hdet
      rw [run_cycle_via_offline env s _ _ hsched hdet2 hprsI]
      rw [offline_steady env.now env.deliver _ _ hpfI]
      simp [hsiI, countPF_append, client_countPF,
        (client_statuses_frame env.now env.deliver _ _).1,
        (client_statuses_frame env.now env.deliver _ _).2.1,
        (client_statuses_frame env.now env.deliver _ _).2.2,
        sentinel_aset_sim, mk_power_state_rec]
  · have hsim' : cfg_flag s.config "POWER_SIMULATION_MODE" "false" = false := by
      simpa using hsim
    have hdet2 := determine_offline_nosim env.now env.reach (load_state s) s
      hsim' hsent (fun ip _ => hreach ip)
    rw [run_cycle_via_offline env s _ _ hsched hdet2 hprs]
    rw [offline_steady env.now env.deliver _ _ hpf]
    by_cases hsi : (load_state s).sim_interrupted <;>
      simp [hsi, countPF_append, client_countPF,
        (client_statuses_frame env.now env.deliver _ _).1,
        (client_statuses_frame env.now env.deliver _ _).2.1,
        (client_statuses_frame env.now env.deliver _ _).2.2,
        mk_power_state_rec, h1, h2]

/-- A cycle whose loaded state is not `POWER_FAIL` (and not
`POWER_RESTORED_SIM`), with all sentinels unreachable, no schedule firing,
`NOTIFY_POWER_FAIL` enabled, and no client statuses, makes exactly one
power-fail delivery attempt, clears the client-notification flags,
persists `POWER_FAIL`, and writes the on-battery line. -/
theorem trans_cycle (env : Env) (s : Sys)
    (h1 : (s.state_file.map (·.state)) ≠ some "POWER_FAIL")
    (h1b : (s.state_file.map (·.state)) ≠ some "POWER_RESTORED_SIM")
    (hsent : sentinel_hosts s.config ≠ [])
    (hreach : ∀ ip, env.reach ip = false)
    (hsched : env.check_scheds = true →
      ∀ q ∈ s.schedules, sched_fires env.now q.2 = false)
    (hen : notify_enabled s.config "POWER_FAIL" = true)
    (hcs : s.client_status_file = []) :
    countPF (run_cycle env s).2 = 1 ∧
    (run_cycle env s).1.client_notif_file = [] ∧
    ((run_cycle env s).1.state_file.map (·.state)) = some "POWER_FAIL" ∧
    (run_cycle env s).1.ups_file = "ups.status: OB LB" := by
  have hload : (load_state s).power_state = s.state_file.map (·.state) := rfl
  have hpf : (load_state s).power_state ≠ some "POWER_FAIL" := by
    rw [hload]; exact h1
  have hprs : (load_state s).power_state ≠ some "POWER_RESTORED_SIM" := by
    rw [hload]; exact h1b
  by_cases hsim : cfg_flag s.config "POWER_SIMULATION_MODE" "false"
  · have hdet := determine_offline_all env.now env.reach (load_state s) s hsim
      hsent (fun ip _ => hreach ip)
    have henA : notify_enabled (aset s.config "POWER_SIMULATION_MODE" "false")
        "POWER_FAIL" = true := by
      rw [notify_enabled_aset_sim]; exact hen
    rcases hW : should_simulation_be_active_now s.schedules env.now with _ | w
    all_goals rw [hW] at hdet
    · have hdet2 : determine_power_status env.now env.reach (load_state s) s =
          ("OFFLINE", load_state s,
           { s with config := aset s.config "POWER_SIMULATION_MODE" "false" }) :=
        hdet
      rw [run_cycle_via_offline env s _ _ hsched hdet2 hprs]
      rw [offline_trans env.now env.deliver _ _ hpf]
      rw [cfg_flag_aset_false s.config]
      have hce := client_empty env.now env.deliver ({ load_state s with client_states := [] }) ({ s with config := aset s.config "POWER_SIMULATION_MODE" "false", client_notif_file := [], debounce_file := (notifier_send (aset s.config "POWER_SIMULATION_MODE" "false") env.deliver env.now.ts "POWER_FAIL" "[UPS] ALERT: Power Outage Detected" s.debounce_file).1, state_file := some (mk_power_state_rec env.now (aset s.config "POWER_SIMULATION_MODE" "false") { load_state s with client_states := [] } "POWER_FAIL"), ups_file := "ups.status: OB LB" }) hcs
      simp only [Bool.false_eq_true, if_false] at *
      rw [hce]
      rcases notifier_send_enabled_events
          (aset s.config "POWER_SIMULATION_MODE" "false") env.deliver env.now.ts
          "POWER_FAIL" "[UPS] ALERT: Power Outage Detected" s.debounce_file
          (by decide) henA with hev | ⟨s2, hev⟩ <;>
        simp [hev, countPF, mk_power_state_rec]
    · set info : InterruptInfo := { schedule := w.schedule, end_time := w.end_time, interrupted_at := env.now.date ++ " " ++ env.now.hm } with hinfo
      set pmI : PMem := { load_state s with sim_interrupted := true, interrupted_info := some info } with hpmI
      have hpfI : pmI.power_state ≠ some "POWER_FAIL" := by
        have : pmI.power_state = (load_state s).power_state := by rw [hpmI]
        rw [this]; exact hpf
      have hprsI : pmI.power_state ≠ some "POWER_RESTORED_SIM" := by
        have : pmI.power_state = (load_state s).power_state := by rw [hpmI]
        rw [this]; exact hprs
      have hdet2 : determine_power_status env.now env.reach (load_state s) s =
          ("OFFLINE", pmI,
           { s with config := aset s.config "POWER_SIMULATION_MODE" "false" }) := by
        rw [hpmI, hinfo]
        exact hdet
      rw [run_cycle_via_offline env s _ _ hsched hdet2 hprsI]
      rw [offline_trans env.now env.deliver _ _ hpfI]
      rw [cfg_flag_aset_false s.config]
      have hce := client_empty env.now env.deliver ({ pmI with client_states := [] }) ({ s with config := aset s.config "POWER_SIMULATION_MODE" "false", client_notif_file := [], debounce_file := (notifier_send (aset s.config "POWER_SIMULATION_MODE" "false") env.deliver env.now.ts "POWER_FAIL" "[UPS] ALERT: Power Outage Detected" s.debounce_file).1, state_file := some (mk_power_state_rec env.now (aset s.config "POWER_SIMULATION_MODE" "false") { pmI with client_states := [] } "POWER_FAIL"), ups_file := "ups.status: OB LB" }) hcs
      simp only [Bool.false_eq_true, if_false] at *
      rw [hce]
      rcases notifier_send_enabled_events
          (aset s.config "POWER_SIMULATION_MODE" "false") env.deliver env.now.ts
          "POWER_FAIL" "[UPS] ALERT: Power Outage Detected" s.debounce_file
          (by decide) henA with hev | ⟨s2, hev⟩ <;>
        simp [hev, countPF, mk_power_state_rec]
  · have hsim' : cfg_flag s.config "POWER_SIMULATION_MODE" "false" = false := by
      simpa using hsim
    have hdet2 := determine_offline_nosim env.now env.reach (load_state s) s
      hsim' hsent (fun ip _ => hreach ip)
    rw [run_cycle_via_offline env s _ _ hsched hdet2 hprs]
    rw [offline_trans env.now env.deliver _ _ hpf]
    rw [hsim']
    have hce := client_empty env.now env.deliver ({ load_state s with client_states := [] }) ({ s with client_notif_file := [], debounce_file := (notifier_send s.config env.deliver env.now.ts "POWER_FAIL" "[UPS] ALERT: Power Outage Detected" s.debounce_file).1, state_file := some (mk_power_state_rec env.now s.config { load_state s with client_states := [] } "POWER_FAIL"), ups_file := "ups.status: OB LB" }) hcs
    simp only [Bool.false_eq_true, if_false] at *
    rw [hce]
    rcases notifier_send_enabled_events s.config env.deliver env.now.ts
        "POWER_FAIL" "[UPS] ALERT: Power Outage Detected" s.debounce_file
        (by decide) hen with hev | ⟨s2, hev⟩ <;>
      simp [hev, countPF, mk_power_state_rec]


theorem wolEvents_append (a b : List Event) :
    wolEvents (a ++ b) = wolEvents a ++ wolEvents b := List.filter_append _ _

theorem client_step_wolEvents (now : Clock) (d : String → Bool) (cfg : Dict)
    (statuses : List (String × CStat)) (m : Int) (acc : ClientAcc)
    (h : String × Dict) :
    wolEvents (client_host_step now d cfg statuses m acc h).events =
      wolEvents acc.events := by
  rw [client_host_step]
  dsimp only
  repeat' split
  all_goals simp [wolEvents_append, wolEvents_notifier]

theorem client_fold_wolEvents (now : Clock) (d : String → Bool) (cfg : Dict)
    (statuses : List (String × CStat)) (m : Int) :
    ∀ (L : List (String × Dict)) (acc : ClientAcc),
      wolEvents ((L.foldl (client_host_step now d cfg statuses m) acc).events) =
        wolEvents acc.events := by
  intro L
  induction L with
  | nil => intro acc; rfl
  | cons hd tl ih =>
    intro acc
    rw [List.foldl_cons, ih]
    exact client_step_wolEvents now d cfg statuses m acc hd

theorem client_wolEvents (now : Clock) (d : String → Bool) (pm : PMem)
    (s : Sys) : wolEvents (check_client_statuses now d pm s).2.2 = [] := by
  rw [check_client_statuses]
  dsimp only
  rw [client_fold_wolEvents]
  rfl

theorem initiate_wol_ups (now : Clock) (d reach wolOk : String → Bool)
    (s : Sys) : (initiate_wol now d reach wolOk s).1.ups_file = s.ups_file := by
  rw [initiate_wol]
  dsimp only
  split_ifs <;> rfl

theorem initiate_wol_events_ups (now : Clock) (d reach wolOk : String → Bool)
    (s : Sys) (u : String) :
    (initiate_wol now d reach wolOk { s with ups_file := u }).2 =
      (initiate_wol now d reach wolOk s).2 := by
  rw [initiate_wol, initiate_wol]
  dsimp only
  split <;> rfl

/-- The `POWER_RESTORED_SIM` wake branch of `_handle_power_online`: once
the WoL delay has elapsed, the wake sequence runs, the interruption flags
are cleared, and the state and client-notification files are cleared. -/
theorem online_prs_wake (now : Clock) (d reach wolOk : String → Bool)
    (pm : PMem) (s : Sys)
    (h1 : pm.power_state = some "POWER_RESTORED_SIM")
    (h2 : ts_truthy pm.power_ts = true)
    (h3 : now.ts - (pm.power_ts.getD 0) ≥
      (get_int_d s.config "WOL_DELAY_MINUTES" 5) * 60) :
    handle_power_online now d reach wolOk pm s =
      ({ pm with sim_interrupted := false, interrupted_info := none },
       { (initiate_wol now d reach wolOk
            { s with ups_file := "ups.status: OL" }).1 with
           state_file := none, client_notif_file := [] },
       (initiate_wol now d reach wolOk
         { s with ups_file := "ups.status: OL" }).2) := by
  rw [handle_power_online]
  rw [h1]
  simp [ps_truthy, h2, h3]

/-- C2: for every cycle whose persisted state is `POWER_RESTORED_SIM` the
engine runs the online-branch handler before and instead of branching on
the freshly computed status — the UPS file ends at the on-line value even
when the status computes OFFLINE — and once the elapsed time since the
`POWER_RESTORED_SIM` timestamp reaches the configured WoL delay, the wake
sequence fires (the cycle's WoL packets are exactly those of
`_initiate_wol`), the state file is cleared back to the initial NONE
state, and with it the interruption flag and interrupted-schedule
metadata. -/
theorem claim_C2 :
    (∀ (env : Env) (s : Sys) (r : StateRec),
      s.state_file = some r → r.state = "POWER_RESTORED_SIM" →
      (env.check_scheds = true →
        ∀ q ∈ s.schedules, sched_fires env.now q.2 = false) →
      (run_cycle env s).1.ups_file = "ups.status: OL") ∧
    (∀ (env : Env) (s : Sys) (r : StateRec),
      s.state_file = some r → r.state = "POWER_RESTORED_SIM" →
      r.timestamp ≠ 0 →
      cfg_flag s.config "POWER_SIMULATION_MODE" "false" = true →
      sentinel_hosts s.config ≠ [] →
      (∃ h ∈ sentinel_hosts s.config, env.reach h = true) →
      (env.check_scheds = true →
        ∀ q ∈ s.schedules, sched_fires env.now q.2 = false) →
      env.now.ts - r.timestamp ≥
        (get_int_d s.config "WOL_DELAY_MINUTES" 5) * 60 →
      (determine_power_status env.now env.reach (load_state s) s).1 =
        "OFFLINE" ∧
      (run_cycle env s).1.state_file = none ∧
      (run_cycle env s).1.ups_file = "ups.status: OL" ∧
      wolEvents (run_cycle env s).2 =
        wolEvents (initiate_wol env.now env.deliver env.reach env.wolOk s).2) := by
  constructor
  · intro env s r h1 h2 hsched
    have hprs : ((determine_power_status env.now env.reach (load_state s)
        s).2.1).power_state = some "POWER_RESTORED_SIM" := by
      rw [determine_power_state]
      simp [load_state, h1, h2]
    have hdet : determine_power_status env.now env.reach (load_state s) s =
        ((determine_power_status env.now env.reach (load_state s) s).1,
         (determine_power_status env.now env.reach (load_state s) s).2.1,
         (determine_power_status env.now env.reach (load_state s) s).2.2) := rfl
    rw [run_cycle_via_prs env s _ _ _ hsched hdet hprs]
    simp [(client_statuses_frame env.now env.deliver _ _).2.2, online_ups]
  · intro env s r h1 h2 hts hsim hsent hex hsched hdelay
    have hdet := determine_sim_online env.now env.reach (load_state s) s hsim
      hsent hex
    have hprs : (load_state s).power_state = some "POWER_RESTORED_SIM" := by
      simp [load_state, h1, h2]
    have hpts : (load_state s).power_ts = some r.timestamp := by
      simp [load_state, h1]
    have htt : ts_truthy (load_state s).power_ts = true := by
      rw [hpts]
      simpa [ts_truthy] using hts
    have hdel : env.now.ts - ((load_state s).power_ts.getD 0) ≥
        (get_int_d s.config "WOL_DELAY_MINUTES" 5) * 60 := by
      rw [hpts]
      simpa using hdelay
    refine ⟨by rw [hdet], ?_, ?_, ?_⟩
    all_goals rw [run_cycle_via_prs env s _ _ _ hsched hdet hprs]
    all_goals rw [online_prs_wake env.now env.deliver env.reach env.wolOk
      (load_state s) s hprs htt hdel]
    · simp [(client_statuses_frame env.now env.deliver _ _).1]
    · simp [(client_statuses_frame env.now env.deliver _ _).2.2,
        initiate_wol_ups]
    · rw [wolEvents_append, client_wolEvents, initiate_wol_events_ups]
      simp

/-- Witness for C2: a cycle in re-armed simulation with the delay elapsed
wakes the ignore-simulation host and clears the state file, while the
status still computes OFFLINE. -/
theorem claim_C2_witness :
    ((some "POWER_RESTORED_SIM" : Option String) = some "POWER_RESTORED_SIM" ∧
      cfg_flag [("POWER_SIMULATION_MODE", "true"),
        ("SENTINEL_HOSTS", "10.0.0.1"), ("WOL_DELAY_MINUTES", "5")]
        "POWER_SIMULATION_MODE" "false" = true) ∧
    ((determine_power_status ⟨"2026-02-03", "10:00", "tuesday", 1300⟩
        (fun ip => ip == "10.0.0.1")
        (load_state ⟨[("POWER_SIMULATION_MODE", "true"),
           ("SENTINEL_HOSTS", "10.0.0.1"), ("WOL_DELAY_MINUTES", "5")], [],
          [("WAKE_HOST_1", [("IP", "10.0.0.5"), ("MAC", "AA:BB"),
             ("IGNORE_SIMULATION", "true")])],
          some ⟨"POWER_RESTORED_SIM", 1000, true, true,
            some ⟨"SCHEDULE_1", "20:00", "2026-02-03 09:00"⟩⟩,
          [], [], [], "x"⟩)
        ⟨[("POWER_SIMULATION_MODE", "true"), ("SENTINEL_HOSTS", "10.0.0.1"),
          ("WOL_DELAY_MINUTES", "5")], [],
         [("WAKE_HOST_1", [("IP", "10.0.0.5"), ("MAC", "AA:BB"),
            ("IGNORE_SIMULATION", "true")])],
         some ⟨"POWER_RESTORED_SIM", 1000, true, true,
           some ⟨"SCHEDULE_1", "20:00", "2026-02-03 09:00"⟩⟩,
         [], [], [], "x"⟩).1 = "OFFLINE" ∧
     (run_cycle ⟨⟨"2026-02-03", "10:00", "tuesday", 1300⟩,
        fun ip => ip == "10.0.0.1", fun _ => true, fun _ => true, false⟩
        ⟨[("POWER_SIMULATION_MODE", "true"), ("SENTINEL_HOSTS", "10.0.0.1"),
          ("WOL_DELAY_MINUTES", "5")], [],
         [("WAKE_HOST_1", [("IP", "10.0.0.5"), ("MAC", "AA:BB"),
            ("IGNORE_SIMULATION", "true")])],
         some ⟨"POWER_RESTORED_SIM", 1000, true, true,
           some ⟨"SCHEDULE_1", "20:00", "2026-02-03 09:00"⟩⟩,
         [], [], [], "x"⟩).1.state_file = none ∧
     (run_cycle ⟨⟨"2026-02-03", "10:00", "tuesday", 1300⟩,
        fun ip => ip == "10.0.0.1", fun _ => true, fun _ => true, false⟩
        ⟨[("POWER_SIMULATION_MODE", "true"), ("SENTINEL_HOSTS", "10.0.0.1"),
          ("WOL_DELAY_MINUTES", "5")], [],
         [("WAKE_HOST_1", [("IP", "10.0.0.5"), ("MAC", "AA:BB"),
            ("IGNORE_SIMULATION", "true")])],
         some ⟨"POWER_RESTORED_SIM", 1000, true, true,
           some ⟨"SCHEDULE_1", "20:00", "2026-02-03 09:00"⟩⟩,
         [], [], [], "x"⟩).1.ups_file = "ups.status: OL" ∧
     wolEvents (run_cycle ⟨⟨"2026-02-03", "10:00", "tuesday", 1300⟩,
        fun ip => ip == "10.0.0.1", fun _ => true, fun _ => true, false⟩
        ⟨[("POWER_SIMULATION_MODE", "true"), ("SENTINEL_HOSTS", "10.0.0.1"),
          ("WOL_DELAY_MINUTES", "5")], [],
         [("WAKE_HOST_1", [("IP", "10.0.0.5"), ("MAC", "AA:BB"),
            ("IGNORE_SIMULATION", "true")])],
         some ⟨"POWER_RESTORED_SIM", 1000, true, true,
           some ⟨"SCHEDULE_1", "20:00", "2026-02-03 09:00"⟩⟩,
         [], [], [], "x"⟩).2 =
       wolEvents (initiate_wol ⟨"2026-02-03", "10:00", "tuesday", 1300⟩
         (fun _ => true) (fun ip => ip == "10.0.0.1") (fun _ => true)
         ⟨[("POWER_SIMULATION_MODE", "true"), ("SENTINEL_HOSTS", "10.0.0.1"),
           ("WOL_DELAY_MINUTES", "5")], [],
          [("WAKE_HOST_1", [("IP", "10.0.0.5"), ("MAC", "AA:BB"),
             ("IGNORE_SIMULATION", "true")])],
          some ⟨"POWER_RESTORED_SIM", 1000, true, true,
            some ⟨"SCHEDULE_1", "20:00", "2026-02-03 09:00"⟩⟩,
          [], [], [], "x"⟩).2) :=
  ⟨⟨rfl, by decide⟩,
    claim_C2.2
      ⟨⟨"2026-02-03", "10:00", "tuesday", 1300⟩, fun ip => ip == "10.0.0.1",
       fun _ => true, fun _ => true, false⟩
      ⟨[("POWER_SIMULATION_MODE", "true"), ("SENTINEL_HOSTS", "10.0.0.1"),
        ("WOL_DELAY_MINUTES", "5")], [],
       [("WAKE_HOST_1", [("IP", "10.0.0.5"), ("MAC", "AA:BB"),
          ("IGNORE_SIMULATION", "true")])],
       some ⟨"POWER_RESTORED_SIM", 1000, true, true,
         some ⟨"SCHEDULE_1", "20:00", "2026-02-03 09:00"⟩⟩,
       [], [], [], "x"⟩
      ⟨"POWER_RESTORED_SIM", 1000, true, true,
        some ⟨"SCHEDULE_1", "20:00", "2026-02-03 09:00"⟩⟩
      rfl rfl (by decide) (by decide) (by decide) (by decide)
      (fun h => absurd h (by decide)) (by decide)⟩


theorem client_single_stale (now : Clock) (d : String → Bool) (pm : PMem)
    (s : Sys) (sec : String) (p : Dict) (ip : String) (st : CStat) (t : Int)
    (hw : s.wake_hosts = [(sec, p)])
    (hhost : acontains p "SHUTDOWN_DELAY_MINUTES" = true)
    (hip : aget? p "IP" = some ip) (hipne : ip ≠ "")
    (hcs : aget? s.client_status_file ip = some st)
    (hst : st.status ≠ "shutdown_pending")
    (hts : st.timestamp = some t)
    (hstale : now.ts - t >
      (get_int_d s.config "CLIENT_STALE_TIMEOUT_MINUTES" 5) * 60)
    (hflag : (aget? pm.client_states
      ("STALE_NOTIFIED_" ++ replaceDots ip)).getD false = false) :
    check_client_statuses now d pm s =
      ({ pm with client_states := aset pm.client_states ("STALE_NOTIFIED_" ++ replaceDots ip) true },
       { s with debounce_file := (notifier_send s.config d now.ts "CLIENT_STALE" "[UPS] WARNING: Client Stale" s.debounce_file).1 },
       (notifier_send s.config d now.ts "CLIENT_STALE"
         "[UPS] WARNING: Client Stale" s.debounce_file).2) := by
  obtain ⟨c1, c2, c3, c4, c5, c6, c7, c8⟩ := s
  dsimp only at hw hcs hstale ⊢
  subst hw
  rw [check_client_statuses]
  dsimp only
  rw [List.foldl_cons, List.foldl_nil]
  rw [client_host_step]
  dsimp only
  rw [hhost, hip]
  have hipb : ((ip == "") = false) := by simp [hipne]
  simp only [Option.getD_some, hipb, Bool.false_eq_true, if_false]
  rw [hcs]
  have hstb : (st.status == "shutdown_pending") = false := by simp [hst]
  simp only [hstb, Bool.false_and, Bool.false_eq_true, if_false]
  rw [hts]
  simp [hstale, hflag]

theorem client_single_quiet (now : Clock) (d : String → Bool) (pm : PMem)
    (s : Sys) (sec : String) (p : Dict) (ip : String) (st : CStat) (t : Int)
    (hw : s.wake_hosts = [(sec, p)])
    (hhost : acontains p "SHUTDOWN_DELAY_MINUTES" = true)
    (hip : aget? p "IP" = some ip) (hipne : ip ≠ "")
    (hcs : aget? s.client_status_file ip = some st)
    (hst : st.status ≠ "shutdown_pending")
    (hts : st.timestamp = some t)
    (hstale : now.ts - t >
      (get_int_d s.config "CLIENT_STALE_TIMEOUT_MINUTES" 5) * 60)
    (hflag : (aget? pm.client_states
      ("STALE_NOTIFIED_" ++ replaceDots ip)).getD false = true) :
    check_client_statuses now d pm s = (pm, s, []) := by
  obtain ⟨c1, c2, c3, c4, c5, c6, c7, c8⟩ := s
  dsimp only at hw hcs hstale ⊢
  subst hw
  rw [check_client_statuses]
  dsimp only
  rw [List.foldl_cons, List.foldl_nil]
  rw [client_host_step]
  dsimp only
  rw [hhost, hip]
  have hipb : ((ip == "") = false) := by simp [hipne]
  simp only [Option.getD_some, hipb, Bool.false_eq_true, if_false]
  rw [hcs]
  have hstb : (st.status == "shutdown_pending") = false := by simp [hst]
  simp only [hstb, Bool.false_and, Bool.false_eq_true, if_false]
  rw [hts]
  simp [hstale, hflag]

theorem client_single_fresh (now : Clock) (d : String → Bool) (pm : PMem)
    (s : Sys) (sec : String) (p : Dict) (ip : String) (st : CStat) (t : Int)
    (hw : s.wake_hosts = [(sec, p)])
    (hhost : acontains p "SHUTDOWN_DELAY_MINUTES" = true)
    (hip : aget? p "IP" = some ip) (hipne : ip ≠ "")
    (hcs : aget? s.client_status_file ip = some st)
    (hst : st.status ≠ "shutdown_pending")
    (hts : st.timestamp = some t)
    (hfresh : ¬ (now.ts - t >
      (get_int_d s.config "CLIENT_STALE_TIMEOUT_MINUTES" 5) * 60))
    (hflag : acontains pm.client_states
      ("STALE_NOTIFIED_" ++ replaceDots ip) = true) :
    check_client_statuses now d pm s =
      ({ pm with client_states := aerase pm.client_states ("STALE_NOTIFIED_" ++ replaceDots ip) },
       s, []) := by
  obtain ⟨c1, c2, c3, c4, c5, c6, c7, c8⟩ := s
  dsimp only at hw hcs hfresh ⊢
  subst hw
  rw [check_client_statuses]
  dsimp only
  rw [List.foldl_cons, List.foldl_nil]
  rw [client_host_step]
  dsimp only
  rw [hhost, hip]
  have hipb : ((ip == "") = false) := by simp [hipne]
  simp only [Option.getD_some, hipb, Bool.false_eq_true, if_false]
  rw [hcs]
  have hstb : (st.status == "shutdown_pending") = false := by simp [hst]
  simp only [hstb, Bool.false_and, Bool.false_eq_true, if_false]
  rw [hts]
  simp [hfresh, hflag]


theorem countStale_enabled (cfg : Dict) (d : String → Bool) (t : Int)
    (subj : String) (deb : List (String × Int))
    (hen : notify_enabled cfg "CLIENT_STALE" = true) :
    countStale (notifier_send cfg d t "CLIENT_STALE" subj deb).2 = 1 := by
  rcases notifier_send_enabled_events cfg d t "CLIENT_STALE" subj deb
      (by decide) hen with h | ⟨s2, h⟩ <;>
    simp [countStale, h]

/-- C9: for a monitored UPS client (a wake host carrying a shutdown
delay), a report older than the stale threshold triggers exactly one
stale notification and sets the per-client flag; while the flag is set a
further stale cycle sends nothing; a fresh report clears the flag; and a
subsequent staleness triggers exactly one new notification. -/
theorem claim_C9 (now1 now2 now3 now4 : Clock) (d : String → Bool)
    (pm0 : PMem) (s0 : Sys) (sec : String) (p : Dict) (ip : String)
    (st1 st2 st3 st4 : CStat) (cs2 cs3 cs4 : List (String × CStat))
    (t1 t2 t3 t4 : Int) (r1 r2 r3 r4 : PMem × Sys × List Event)
    (hw : s0.wake_hosts = [(sec, p)])
    (hhost : acontains p "SHUTDOWN_DELAY_MINUTES" = true)
    (hip : aget? p "IP" = some ip) (hipne : ip ≠ "")
    (hen : notify_enabled s0.config "CLIENT_STALE" = true)
    (hflag0 : (aget? pm0.client_states
      ("STALE_NOTIFIED_" ++ replaceDots ip)).getD false = false)
    (hcs1 : aget? s0.client_status_file ip = some st1)
    (hst1 : st1.status ≠ "shutdown_pending") (hts1 : st1.timestamp = some t1)
    (hstale1 : now1.ts - t1 >
      (get_int_d s0.config "CLIENT_STALE_TIMEOUT_MINUTES" 5) * 60)
    (hr1 : check_client_statuses now1 d pm0 s0 = r1)
    (hcs2 : aget? cs2 ip = some st2)
    (hst2 : st2.status ≠ "shutdown_pending") (hts2 : st2.timestamp = some t2)
    (hstale2 : now2.ts - t2 >
      (get_int_d s0.config "CLIENT_STALE_TIMEOUT_MINUTES" 5) * 60)
    (hr2 : check_client_statuses now2 d r1.1
      { r1.2.1 with client_status_file := cs2 } = r2)
    (hcs3 : aget? cs3 ip = some st3)
    (hst3 : st3.status ≠ "shutdown_pending") (hts3 : st3.timestamp = some t3)
    (hfresh3 : ¬ (now3.ts - t3 >
      (get_int_d s0.config "CLIENT_STALE_TIMEOUT_MINUTES" 5) * 60))
    (hr3 : check_client_statuses now3 d r2.1
      { r2.2.1 with client_status_file := cs3 } = r3)
    (hcs4 : aget? cs4 ip = some st4)
    (hst4 : st4.status ≠ "shutdown_pending") (hts4 : st4.timestamp = some t4)
    (hstale4 : now4.ts - t4 >
      (get_int_d s0.config "CLIENT_STALE_TIMEOUT_MINUTES" 5) * 60)
    (hr4 : check_client_statuses now4 d r3.1
      { r3.2.1 with client_status_file := cs4 } = r4) :
    countStale r1.2.2 = 1 ∧
    aget? r1.1.client_states ("STALE_NOTIFIED_" ++ replaceDots ip) =
      some true ∧
    countStale r2.2.2 = 0 ∧
    countStale r3.2.2 = 0 ∧
    aget? r3.1.client_states ("STALE_NOTIFIED_" ++ replaceDots ip) = none ∧
    countStale r4.2.2 = 1 := by
  rw [client_single_stale now1 d pm0 s0 sec p ip st1 t1 hw hhost hip hipne
    hcs1 hst1 hts1 hstale1 hflag0] at hr1
  subst hr1
  rw [client_single_quiet now2 d _ _ sec p ip st2 t2 (by simpa using hw)
    hhost hip hipne (by simpa using hcs2) hst2 hts2 (by simpa using hstale2)
    (by simp [aget_aset_self])] at hr2
  subst hr2
  rw [client_single_fresh now3 d _ _ sec p ip st3 t3 (by simpa using hw)
    hhost hip hipne (by simpa using hcs3) hst3 hts3 (by simpa using hfresh3)
    (by simp [acontains, aget_aset_self])] at hr3
  subst hr3
  rw [client_single_stale now4 d _ _ sec p ip st4 t4 (by simpa using hw)
    hhost hip hipne (by simpa using hcs4) hst4 hts4 (by simpa using hstale4)
    (by simp [aget_aerase_self])] at hr4
  subst hr4
  refine ⟨?_, ?_, ?_, ?_, ?_, ?_⟩
  · exact countStale_enabled s0.config d now1.ts "[UPS] WARNING: Client Stale"
      s0.debounce_file hen
  · exact aget_aset_self _ _ _
  · rfl
  · rfl
  · exact aget_aerase_self _ _
  · exact countStale_enabled _ d now4.ts "[UPS] WARNING: Client Stale" _ hen

theorem claim_C9_witness :
    countStale (check_client_statuses (⟨"2024-01-01", "00:00", "monday", 301⟩ : Clock) (fun _ => true) (⟨none, none, false, false, none, []⟩ : PMem) (⟨[("NOTIFY_CLIENT_STALE", "true")], [], [("WAKE_HOST_1", [("IP", "10.0.0.2"), ("SHUTDOWN_DELAY_MINUTES", "3")])], none, [], [], [("10.0.0.2", (⟨"online", some 0⟩ : CStat))], ""⟩ : Sys)).2.2 = 1 ∧
    aget? (check_client_statuses (⟨"2024-01-01", "00:00", "monday", 301⟩ : Clock) (fun _ => true) (⟨none, none, false, false, none, []⟩ : PMem) (⟨[("NOTIFY_CLIENT_STALE", "true")], [], [("WAKE_HOST_1", [("IP", "10.0.0.2"), ("SHUTDOWN_DELAY_MINUTES", "3")])], none, [], [], [("10.0.0.2", (⟨"online", some 0⟩ : CStat))], ""⟩ : Sys)).1.client_states ("STALE_NOTIFIED_" ++ replaceDots "10.0.0.2") = some true ∧
    countStale (check_client_statuses (⟨"2024-01-01", "00:00", "monday", 400⟩ : Clock) (fun _ => true) (check_client_statuses (⟨"2024-01-01", "00:00", "monday", 301⟩ : Clock) (fun _ => true) (⟨none, none, false, false, none, []⟩ : PMem) (⟨[("NOTIFY_CLIENT_STALE", "true")], [], [("WAKE_HOST_1", [("IP", "10.0.0.2"), ("SHUTDOWN_DELAY_MINUTES", "3")])], none, [], [], [("10.0.0.2", (⟨"online", some 0⟩ : CStat))], ""⟩ : Sys)).1 { (check_client_statuses (⟨"2024-01-01", "00:00", "monday", 301⟩ : Clock) (fun _ => true) (⟨none, none, false, false, none, []⟩ : PMem) (⟨[("NOTIFY_CLIENT_STALE", "true")], [], [("WAKE_HOST_1", [("IP", "10.0.0.2"), ("SHUTDOWN_DELAY_MINUTES", "3")])], none, [], [], [("10.0.0.2", (⟨"online", some 0⟩ : CStat))], ""⟩ : Sys)).2.1 with client_status_file := [("10.0.0.2", (⟨"online", some 0⟩ : CStat))] }).2.2 = 0 ∧
    countStale (check_client_statuses (⟨"2024-01-01", "00:00", "monday", 500⟩ : Clock) (fun _ => true) (check_client_statuses (⟨"2024-01-01", "00:00", "monday", 400⟩ : Clock) (fun _ => true) (check_client_statuses (⟨"2024-01-01", "00:00", "monday", 301⟩ : Clock) (fun _ => true) (⟨none, none, false, false, none, []⟩ : PMem) (⟨[("NOTIFY_CLIENT_STALE", "true")], [], [("WAKE_HOST_1", [("IP", "10.0.0.2"), ("SHUTDOWN_DELAY_MINUTES", "3")])], none, [], [], [("10.0.0.2", (⟨"online", some 0⟩ : CStat))], ""⟩ : Sys)).1 { (check_client_statuses (⟨"2024-01-01", "00:00", "monday", 301⟩ : Clock) (fun _ => true) (⟨none, none, false, false, none, []⟩ : PMem) (⟨[("NOTIFY_CLIENT_STALE", "true")], [], [("WAKE_HOST_1", [("IP", "10.0.0.2"), ("SHUTDOWN_DELAY_MINUTES", "3")])], none, [], [], [("10.0.0.2", (⟨"online", some 0⟩ : CStat))], ""⟩ : Sys)).2.1 with client_status_file := [("10.0.0.2", (⟨"online", some 0⟩ : CStat))] }).1 { (check_client_statuses (⟨"2024-01-01", "00:00", "monday", 400⟩ : Clock) (fun _ => true) (check_client_statuses (⟨"2024-01-01", "00:00", "monday", 301⟩ : Clock) (fun _ => true) (⟨none, none, false, false, none, []⟩ : PMem) (⟨[("NOTIFY_CLIENT_STALE", "true")], [], [("WAKE_HOST_1", [("IP", "10.0.0.2"), ("SHUTDOWN_DELAY_MINUTES", "3")])], none, [], [], [("10.0.0.2", (⟨"online", some 0⟩ : CStat))], ""⟩ : Sys)).1 { (check_client_statuses (⟨"2024-01-01", "00:00", "monday", 301⟩ : Clock) (fun _ => true) (⟨none, none, false, false, none, []⟩ : PMem) (⟨[("NOTIFY_CLIENT_STALE", "true")], [], [("WAKE_HOST_1", [("IP", "10.0.0.2"), ("SHUTDOWN_DELAY_MINUTES", "3")])], none, [], [], [("10.0.0.2", (⟨"online", some 0⟩ : CStat))], ""⟩ : Sys)).2.1 with client_status_file := [("10.0.0.2", (⟨"online", some 0⟩ : CStat))] }).2.1 with client_status_file := [("10.0.0.2", (⟨"online", some 400⟩ : CStat))] }).2.2 = 0 ∧
    aget? (check_client_statuses (⟨"2024-01-01", "00:00", "monday", 500⟩ : Clock) (fun _ => true) (check_client_statuses (⟨"2024-01-01", "00:00", "monday", 400⟩ : Clock) (fun _ => true) (check_client_statuses (⟨"2024-01-01", "00:00", "monday", 301⟩ : Clock) (fun _ => true) (⟨none, none, false, false, none, []⟩ : PMem) (⟨[("NOTIFY_CLIENT_STALE", "true")], [], [("WAKE_HOST_1", [("IP", "10.0.0.2"), ("SHUTDOWN_DELAY_MINUTES", "3")])], none, [], [], [("10.0.0.2", (⟨"online", some 0⟩ : CStat))], ""⟩ : Sys)).1 { (check_client_statuses (⟨"2024-01-01", "00:00", "monday", 301⟩ : Clock) (fun _ => true) (⟨none, none, false, false, none, []⟩ : PMem) (⟨[("NOTIFY_CLIENT_STALE", "true")], [], [("WAKE_HOST_1", [("IP", "10.0.0.2"), ("SHUTDOWN_DELAY_MINUTES", "3")])], none, [], [], [("10.0.0.2", (⟨"online", some 0⟩ : CStat))], ""⟩ : Sys)).2.1 with client_status_file := [("10.0.0.2", (⟨"online", some 0⟩ : CStat))] }).1 { (check_client_statuses (⟨"2024-01-01", "00:00", "monday", 400⟩ : Clock) (fun _ => true) (check_client_statuses (⟨"2024-01-01", "00:00", "monday", 301⟩ : Clock) (fun _ => true) (⟨none, none, false, false, none, []⟩ : PMem) (⟨[("NOTIFY_CLIENT_STALE", "true")], [], [("WAKE_HOST_1", [("IP", "10.0.0.2"), ("SHUTDOWN_DELAY_MINUTES", "3")])], none, [], [], [("10.0.0.2", (⟨"online", some 0⟩ : CStat))], ""⟩ : Sys)).1 { (check_client_statuses (⟨"2024-01-01", "00:00", "monday", 301⟩ : Clock) (fun _ => true) (⟨none, none, false, false, none, []⟩ : PMem) (⟨[("NOTIFY_CLIENT_STALE", "true")], [], [("WAKE_HOST_1", [("IP", "10.0.0.2"), ("SHUTDOWN_DELAY_MINUTES", "3")])], none, [], [], [("10.0.0.2", (⟨"online", some 0⟩ : CStat))], ""⟩ : Sys)).2.1 with client_status_file := [("10.0.0.2", (⟨"online", some 0⟩ : CStat))] }).2.1 with client_status_file := [("10.0.0.2", (⟨"online", some 400⟩ : CStat))] }).1.client_states ("STALE_NOTIFIED_" ++ replaceDots "10.0.0.2") = none ∧
    countStale (check_client_statuses (⟨"2024-01-01", "00:00", "monday", 800⟩ : Clock) (fun _ => true) (check_client_statuses (⟨"2024-01-01", "00:00", "monday", 500⟩ : Clock) (fun _ => true) (check_client_statuses (⟨"2024-01-01", "00:00", "monday", 400⟩ : Clock) (fun _ => true) (check_client_statuses (⟨"2024-01-01", "00:00", "monday", 301⟩ : Clock) (fun _ => true) (⟨none, none, false, false, none, []⟩ : PMem) (⟨[("NOTIFY_CLIENT_STALE", "true")], [], [("WAKE_HOST_1", [("IP", "10.0.0.2"), ("SHUTDOWN_DELAY_MINUTES", "3")])], none, [], [], [("10.0.0.2", (⟨"online", some 0⟩ : CStat))], ""⟩ : Sys)).1 { (check_client_statuses (⟨"2024-01-01", "00:00", "monday", 301⟩ : Clock) (fun _ => true) (⟨none, none, false, false, none, []⟩ : PMem) (⟨[("NOTIFY_CLIENT_STALE", "true")], [], [("WAKE_HOST_1", [("IP", "10.0.0.2"), ("SHUTDOWN_DELAY_MINUTES", "3")])], none, [], [], [("10.0.0.2", (⟨"online", some 0⟩ : CStat))], ""⟩ : Sys)).2.1 with client_status_file := [("10.0.0.2", (⟨"online", some 0⟩ : CStat))] }).1 { (check_client_statuses (⟨"2024-01-01", "00:00", "monday", 400⟩ : Clock) (fun _ => true) (check_client_statuses (⟨"2024-01-01", "00:00", "monday", 301⟩ : Clock) (fun _ => true) (⟨none, none, false, false, none, []⟩ : PMem) (⟨[("NOTIFY_CLIENT_STALE", "true")], [], [("WAKE_HOST_1", [("IP", "10.0.0.2"), ("SHUTDOWN_DELAY_MINUTES", "3")])], none, [], [], [("10.0.0.2", (⟨"online", some 0⟩ : CStat))], ""⟩ : Sys)).1 { (check_client_statuses (⟨"2024-01-01", "00:00", "monday", 301⟩ : Clock) (fun _ => true) (⟨none, none, false, false, none, []⟩ : PMem) (⟨[("NOTIFY_CLIENT_STALE", "true")], [], [("WAKE_HOST_1", [("IP", "10.0.0.2"), ("SHUTDOWN_DELAY_MINUTES", "3")])], none, [], [], [("10.0.0.2", (⟨"online", some 0⟩ : CStat))], ""⟩ : Sys)).2.1 with client_status_file := [("10.0.0.2", (⟨"online", some 0⟩ : CStat))] }).2.1 with client_status_file := [("10.0.0.2", (⟨"online", some 400⟩ : CStat))] }).1 { (check_client_statuses (⟨"2024-01-01", "00:00", "monday", 500⟩ : Clock) (fun _ => true) (check_client_statuses (⟨"2024-01-01", "00:00", "monday", 400⟩ : Clock) (fun _ => true) (check_client_statuses (⟨"2024-01-01", "00:00", "monday", 301⟩ : Clock) (fun _ => true) (⟨none, none, false, false, none, []⟩ : PMem) (⟨[("NOTIFY_CLIENT_STALE", "true")], [], [("WAKE_HOST_1", [("IP", "10.0.0.2"), ("SHUTDOWN_DELAY_MINUTES", "3")])], none, [], [], [("10.0.0.2", (⟨"online", some 0⟩ : CStat))], ""⟩ : Sys)).1 { (check_client_statuses (⟨"2024-01-01", "00:00", "monday", 301⟩ : Clock) (fun _ => true) (⟨none, none, false, false, none, []⟩ : PMem) (⟨[("NOTIFY_CLIENT_STALE", "true")], [], [("WAKE_HOST_1", [("IP", "10.0.0.2"), ("SHUTDOWN_DELAY_MINUTES", "3")])], none, [], [], [("10.0.0.2", (⟨"online", some 0⟩ : CStat))], ""⟩ : Sys)).2.1 with client_status_file := [("10.0.0.2", (⟨"online", some 0⟩ : CStat))] }).1 { (check_client_statuses (⟨"2024-01-01", "00:00", "monday", 400⟩ : Clock) (fun _ => true) (check_client_statuses (⟨"2024-01-01", "00:00", "monday", 301⟩ : Clock) (fun _ => true) (⟨none, none, false, false, none, []⟩ : PMem) (⟨[("NOTIFY_CLIENT_STALE", "true")], [], [("WAKE_HOST_1", [("IP", "10.0.0.2"), ("SHUTDOWN_DELAY_MINUTES", "3")])], none, [], [], [("10.0.0.2", (⟨"online", some 0⟩ : CStat))], ""⟩ : Sys)).1 { (check_client_statuses (⟨"2024-01-01", "00:00", "monday", 301⟩ : Clock) (fun _ => true) (⟨none, none, false, false, none, []⟩ : PMem) (⟨[("NOTIFY_CLIENT_STALE", "true")], [], [("WAKE_HOST_1", [("IP", "10.0.0.2"), ("SHUTDOWN_DELAY_MINUTES", "3")])], none, [], [], [("10.0.0.2", (⟨"online", some 0⟩ : CStat))], ""⟩ : Sys)).2.1 with client_status_file := [("10.0.0.2", (⟨"online", some 0⟩ : CStat))] }).2.1 with client_status_file := [("10.0.0.2", (⟨"online", some 400⟩ : CStat))] }).2.1 with client_status_file := [("10.0.0.2", (⟨"online", some 400⟩ : CStat))] }).2.2 = 1 := by
  exact claim_C9 (⟨"2024-01-01", "00:00", "monday", 301⟩ : Clock) (⟨"2024-01-01", "00:00", "monday", 400⟩ : Clock) (⟨"2024-01-01", "00:00", "monday", 500⟩ : Clock) (⟨"2024-01-01", "00:00", "monday", 800⟩ : Clock) (fun _ => true) (⟨none, none, false, false, none, []⟩ : PMem) (⟨[("NOTIFY_CLIENT_STALE", "true")], [], [("WAKE_HOST_1", [("IP", "10.0.0.2"), ("SHUTDOWN_DELAY_MINUTES", "3")])], none, [], [], [("10.0.0.2", (⟨"online", some 0⟩ : CStat))], ""⟩ : Sys) "WAKE_HOST_1" [("IP", "10.0.0.2"), ("SHUTDOWN_DELAY_MINUTES", "3")] "10.0.0.2" (⟨"online", some 0⟩ : CStat) (⟨"online", some 0⟩ : CStat) (⟨"online", some 400⟩ : CStat) (⟨"online", some 400⟩ : CStat) [("10.0.0.2", (⟨"online", some 0⟩ : CStat))] [("10.0.0.2", (⟨"online", some 400⟩ : CStat))] [("10.0.0.2", (⟨"online", some 400⟩ : CStat))] 0 0 400 400 _ _ _ _ rfl (by decide) (by decide) (by decide) (by decide) (by decide) (by decide) (by decide) (by decide) (by decide) rfl (by decide) (by decide) (by decide) (by decide) rfl (by decide) (by decide) (by decide) (by decide) rfl (by decide) (by decide) (by decide) (by decide) rfl


theorem save_copy (key value : String) (sect : Option String) :
    ∀ (lines : List String) (st : SaveState),
      (∀ l ∈ lines,
        ((splitEq (pyStrip l)).map (fun pr => pyStrip pr.1)) ≠ some key) →
      (lines.foldl (save_line_step key value sect) st).out = st.out ++ lines ∧
      (lines.foldl (save_line_step key value sect) st).keyFound =
        st.keyFound := by
  intro lines
  induction lines with
  | nil => intro st _; simp
  | cons l ls ih =>
    intro st hnf
    rw [List.foldl_cons]
    have hstep : (save_line_step key value sect st l).out = st.out ++ [l] ∧
        (save_line_step key value sect st l).keyFound = st.keyFound := by
      rw [save_line_step]
      split
      · exact ⟨rfl, rfl⟩
      · split
        · rcases hse : splitEq (pyStrip l) with _ | ⟨k0, v0⟩
          · simp [hse]
          · have hne := hnf l (List.mem_cons_self l ls)
            rw [hse] at hne
            have hb : (pyStrip k0 == key) = false := by
              refine beq_eq_false_iff_ne.mpr ?_
              intro he
              exact hne (by simp [he])
            simp [hse, hb]
        · exact ⟨rfl, rfl⟩
    have ihs := ih (save_line_step key value sect st l)
      (fun l2 h2 => hnf l2 (List.mem_cons_of_mem l h2))
    refine ⟨?_, ?_⟩
    · rw [ihs.1, hstep.1, List.append_assoc]
      rfl
    · rw [ihs.2, hstep.2]

theorem parse_blank (P : ParseState) : parse_config_line P "" = P := rfl

theorem pyStrip_edges (a b : Char) (m : List Char) (ha : isWs a = false)
    (hb : isWs b = false) :
    pyStrip ⟨a :: (m ++ [b])⟩ = ⟨a :: (m ++ [b])⟩ := by
  simp [pyStrip, pyStripChars, pyLStrip, pyRStrip, List.dropWhile_cons, ha, hb]

theorem data_bracket (s : String) :
    ("[" ++ s ++ "]").data = '[' :: (s.data ++ [']']) := by
  simp [String.data_append]

theorem pyStrip_bracket (s : String) :
    pyStrip ("[" ++ s ++ "]") = "[" ++ s ++ "]" := by
  have hd : ("[" ++ s ++ "]") = (⟨'[' :: (s.data ++ [']'])⟩ : String) := by
    refine String.ext ?_
    simpa using data_bracket s
  rw [hd, pyStrip_edges '[' ']' s.data (by decide) (by decide)]

theorem headerName_bracket (s : String) :
    headerName ("[" ++ s ++ "]") = s := by
  refine String.ext ?_
  rw [headerName]
  simp [data_bracket, List.dropLast_concat]

theorem header_starts (s : String) :
    startsWithChar ("[" ++ s ++ "]") '[' = true := by
  simp [startsWithChar, data_bracket]

theorem header_ends (s : String) :
    endsWithChar ("[" ++ s ++ "]") ']' = true := by
  rw [endsWithChar, data_bracket,
    show ('[' :: (s.data ++ [']'])) = ('[' :: s.data) ++ [']'] from rfl,
    List.getLast?_concat]
  decide

theorem header_nonempty (s : String) :
    (("[" ++ s ++ "]") == "") = false := by
  refine beq_eq_false_iff_ne.mpr ?_
  intro h
  have hc := congrArg String.data h
  rw [data_bracket] at hc
  exact List.noConfusion hc

theorem header_no_hash (s : String) :
    startsWithChar ("[" ++ s ++ "]") '#' = false := by
  simp [startsWithChar, data_bracket]

theorem starts_head (s pre : String) (c : Char) (hpre : pre.data.head? = some c)
    (h : startsWithStr s pre = true) : s.data.head? = some c := by
  rw [startsWithStr] at h
  obtain ⟨t, ht⟩ := List.isPrefixOf_iff_prefix.mp h
  rw [← ht]
  cases hp : pre.data with
  | nil => rw [hp] at hpre; exact absurd hpre (by simp)
  | cons a l =>
    rw [hp] at hpre
    simp at hpre
    simp [hpre]

theorem sched_not_wake (s : String) (h : startsWithStr s "SCHEDULE_" = true) :
    startsWithStr s "WAKE_HOST_" = false := by
  cases hb : startsWithStr s "WAKE_HOST_" with
  | false => rfl
  | true =>
    have h1 := starts_head s "SCHEDULE_" 'S' (by decide) h
    have h2 := starts_head s "WAKE_HOST_" 'W' (by decide) hb
    rw [h1] at h2
    exact absurd h2 (by decide)


theorem parse_header_wake (P : ParseState) (s : String)
    (hw : startsWithStr s "WAKE_HOST_" = true) :
    parse_config_line P ("[" ++ s ++ "]") =
      { P with wake_hosts := aset P.wake_hosts s [], cur := some s } := by
  rw [parse_config_line]
  dsimp only
  rw [pyStrip_bracket]
  rw [if_neg (by simp [header_nonempty, header_no_hash])]
  rw [if_pos (by simp [header_starts, header_ends])]
  rw [headerName_bracket]
  rw [if_pos hw]

theorem parse_header_sched (P : ParseState) (s : String)
    (hs : startsWithStr s "SCHEDULE_" = true) :
    parse_config_line P ("[" ++ s ++ "]") =
      { P with schedules := aset P.schedules s [], cur := some s } := by
  rw [parse_config_line]
  dsimp only
  rw [pyStrip_bracket]
  rw [if_neg (by simp [header_nonempty, header_no_hash])]
  rw [if_pos (by simp [header_starts, header_ends])]
  rw [headerName_bracket]
  rw [if_neg (by simp [sched_not_wake s hs])]
  rw [if_pos hs]

theorem keyline_not_header (key value : String) :
    endsWithChar (keyLine 0 key value) ']' = false := by
  rw [endsWithChar, keyLine]
  rw [show ((⟨List.replicate 0 ' '⟩ : String) ++ key ++ "=\"" ++ value ++
      "\"").data =
    ((⟨List.replicate 0 ' '⟩ : String) ++ key ++ "=\"" ++ value).data ++
      ['\"'] from by simp [String.data_append]]
  rw [List.getLast?_concat]
  decide


theorem parse_keyline_sec (P : ParseState) (s key value raw : String)
    (hcur : P.cur = some s)
    (hstrip : pyStrip raw = keyLine 0 key value)
    (hL2 : startsWithChar (keyLine 0 key value) '#' = false)
    (hL3 : splitEq (keyLine 0 key value) = some (key, "\"" ++ value ++ "\""))
    (hkstrip : pyStrip key = key)
    (hclean : cleanValue ("\"" ++ value ++ "\"") = value)
    (hw : startsWithStr s "WAKE_HOST_" = true) :
    parse_config_line P raw =
      { P with wake_hosts := assignIn P.wake_hosts s key value } := by
  have hne : (keyLine 0 key value == "") = false := by
    refine beq_eq_false_iff_ne.mpr ?_
    intro h
    rw [h] at hL3
    have h0 : splitEq "" = none := rfl
    rw [h0] at hL3
    exact Option.noConfusion hL3
  rw [parse_config_line]
  dsimp only
  rw [hstrip]
  rw [if_neg (by simp [hne, hL2])]
  rw [if_neg (by simp [keyline_not_header])]
  rw [hL3]
  dsimp only
  rw [hkstrip, hclean, hcur]
  dsimp only
  rw [if_pos hw]

theorem parse_keyline_sched (P : ParseState) (s key value raw : String)
    (hcur : P.cur = some s)
    (hstrip : pyStrip raw = keyLine 0 key value)
    (hL2 : startsWithChar (keyLine 0 key value) '#' = false)
    (hL3 : splitEq (keyLine 0 key value) = some (key, "\"" ++ value ++ "\""))
    (hkstrip : pyStrip key = key)
    (hclean : cleanValue ("\"" ++ value ++ "\"") = value)
    (hs : startsWithStr s "SCHEDULE_" = true) :
    parse_config_line P raw =
      { P with schedules := assignIn P.schedules s key value } := by
  have hne : (keyLine 0 key value == "") = false := by
    refine beq_eq_false_iff_ne.mpr ?_
    intro h
    rw [h] at hL3
    have h0 : splitEq "" = none := rfl
    rw [h0] at hL3
    exact Option.noConfusion hL3
  rw [parse_config_line]
  dsimp only
  rw [hstrip]
  rw [if_neg (by simp [hne, hL2])]
  rw [if_neg (by simp [keyline_not_header])]
  rw [hL3]
  dsimp only
  rw [hkstrip, hclean, hcur]
  dsimp only
  rw [if_neg (by simp [sched_not_wake s hs])]
  rw [if_pos hs]

theorem parse_keyline_global (P : ParseState) (key value raw : String)
    (hcur : P.cur = none)
    (hstrip : pyStrip raw = keyLine 0 key value)
    (hL2 : startsWithChar (keyLine 0 key value) '#' = false)
    (hL3 : splitEq (keyLine 0 key value) = some (key, "\"" ++ value ++ "\""))
    (hkstrip : pyStrip key = key)
    (hclean : cleanValue ("\"" ++ value ++ "\"") = value) :
    parse_config_line P raw =
      { P with config := aset P.config key value } := by
  have hne : (keyLine 0 key value == "") = false := by
    refine beq_eq_false_iff_ne.mpr ?_
    intro h
    rw [h] at hL3
    have h0 : splitEq "" = none := rfl
    rw [h0] at hL3
    exact Option.noConfusion hL3
  rw [parse_config_line]
  dsimp only
  rw [hstrip]
  rw [if_neg (by simp [hne, hL2])]
  rw [if_neg (by simp [keyline_not_header])]
  rw [hL3]
  dsimp only
  rw [hkstrip, hclean, hcur]


/-- C8 counterexample: saving a key to the GLOBAL scope of a file whose
final open section is a wake host does not round-trip — the appended
`KEY="VALUE"` line is parsed inside that section on reload, so the global
lookup misses the key (and the section gains it). -/
theorem claim_C8_cex :
    aget? (read_power_manager_config (save_setting_to_config
      ["[WAKE_HOST_1]", "IP=\"1.2.3.4\""] "MYKEY" "v" none)).config "MYKEY" = none ∧
    aget? ((aget? (read_power_manager_config (save_setting_to_config
      ["[WAKE_HOST_1]", "IP=\"1.2.3.4\""] "MYKEY" "v" none)).wake_hosts
      "WAKE_HOST_1").getD []) "MYKEY" = some "v" := by decide

theorem determine_frame (now : Clock) (reach : String → Bool) (pm : PMem)
    (s : Sys) :
    (determine_power_status now reach pm s).2.1.power_state = pm.power_state ∧
    (determine_power_status now reach pm s).2.2.state_file = s.state_file ∧
    (determine_power_status now reach pm s).2.2.client_status_file =
      s.client_status_file ∧
    (determine_power_status now reach pm s).2.2.client_notif_file =
      s.client_notif_file ∧
    (determine_power_status now reach pm s).2.2.debounce_file =
      s.debounce_file ∧
    (determine_power_status now reach pm s).2.2.schedules = s.schedules := by
  rw [determine_power_status]
  dsimp only
  repeat' split
  all_goals simp

/-- A cycle whose loaded state is already `POWER_FAIL` and whose computed
status is `OFFLINE` (for any reason — real outage or forced simulation),
with no schedule firing, sends no power-fail or simulation notification,
rewrites the UPS file to the on-battery line, and keeps the persisted
state at `POWER_FAIL`. -/
theorem steady_cycle_abs (env : Env) (s : Sys) (pmd : PMem) (sd : Sys)
    (r : StateRec) (h1 : s.state_file = some r) (h2 : r.state = "POWER_FAIL")
    (hdet : determine_power_status env.now env.reach (load_state s) s =
      ("OFFLINE", pmd, sd))
    (hsched : env.check_scheds = true →
      ∀ q ∈ s.schedules, sched_fires env.now q.2 = false) :
    countPF (run_cycle env s).2 = 0 ∧
    (run_cycle env s).1.ups_file = "ups.status: OB LB" ∧
    (∃ r2, (run_cycle env s).1.state_file = some r2 ∧
      r2.state = "POWER_FAIL") := by
  have hload : (load_state s).power_state = some "POWER_FAIL" := by
    simp [load_state, h1, h2]
  have hfr := determine_frame env.now env.reach (load_state s) s
  rw [hdet] at hfr
  dsimp only at hfr
  have hpf : pmd.power_state = some "POWER_FAIL" := by rw [hfr.1, hload]
  have hprs : pmd.power_state ≠ some "POWER_RESTORED_SIM" := by
    rw [hpf]; simp
  rw [run_cycle_via_offline env s pmd sd hsched hdet hprs]
  rw [offline_steady env.now env.deliver pmd sd hpf]
  by_cases hsi : pmd.sim_interrupted <;>
    simp [hsi, countPF_append, client_countPF,
      (client_statuses_frame env.now env.deliver _ _).1,
      (client_statuses_frame env.now env.deliver _ _).2.1,
      (client_statuses_frame env.now env.deliver _ _).2.2,
      mk_power_state_rec, hfr.2.1, h1, h2]


/-- A cycle whose loaded state is not `POWER_FAIL` (nor
`POWER_RESTORED_SIM`) and whose computed status is `OFFLINE`, with no
schedule firing, the matching notification category enabled
(`SIMULATION_MODE` when the simulation flag survives status
determination, `POWER_FAIL` otherwise) and no client statuses, makes
exactly one power-fail-or-simulation delivery attempt, clears the
client-notification flags, persists `POWER_FAIL`, and writes the
on-battery line. -/
theorem trans_cycle_abs (env : Env) (s : Sys) (pmd : PMem) (sd : Sys)
    (h1 : (s.state_file.map (·.state)) ≠ some "POWER_FAIL")
    (h1b : (s.state_file.map (·.state)) ≠ some "POWER_RESTORED_SIM")
    (hdet : determine_power_status env.now env.reach (load_state s) s =
      ("OFFLINE", pmd, sd))
    (hsched : env.check_scheds = true →
      ∀ q ∈ s.schedules, sched_fires env.now q.2 = false)
    (hen : (if cfg_flag sd.config "POWER_SIMULATION_MODE" "false" then
        notify_enabled sd.config "SIMULATION_MODE"
      else notify_enabled sd.config "POWER_FAIL") = true)
    (hcs : s.client_status_file = []) :
    countPF (run_cycle env s).2 = 1 ∧
    (run_cycle env s).1.client_notif_file = [] ∧
    ((run_cycle env s).1.state_file.map (·.state)) = some "POWER_FAIL" ∧
    (run_cycle env s).1.ups_file = "ups.status: OB LB" := by
  have hload : (load_state s).power_state = s.state_file.map (·.state) := rfl
  have hfr := determine_frame env.now env.reach (load_state s) s
  rw [hdet] at hfr
  dsimp only at hfr
  have hpf : pmd.power_state ≠ some "POWER_FAIL" := by
    rw [hfr.1, hload]; exact h1
  have hprs : pmd.power_state ≠ some "POWER_RESTORED_SIM" := by
    rw [hfr.1, hload]; exact h1b
  have hcs2 : sd.client_status_file = [] := by rw [hfr.2.2.1]; exact hcs
  rw [run_cycle_via_offline env s pmd sd hsched hdet hprs]
  rw [offline_trans env.now env.deliver pmd sd hpf]
  by_cases hsim : cfg_flag sd.config "POWER_SIMULATION_MODE" "false"
  · rw [if_pos hsim] at hen
    simp only [hsim, if_true]
    rw [client_empty env.now env.deliver _ _ (by dsimp only; exact hcs2)]
    rcases notifier_send_enabled_events sd.config env.deliver env.now.ts
        "SIMULATION_MODE" "[UPS] INFO: Power Outage Simulation Active"
        sd.debounce_file (by decide) hen with hev | ⟨s2, hev⟩ <;>
      simp [hev, countPF, mk_power_state_rec]
  · rw [if_neg hsim] at hen
    have hsim' : cfg_flag sd.config "POWER_SIMULATION_MODE" "false" = false := by
      simpa using hsim
    simp only [hsim', Bool.false_eq_true, if_false]
    rw [client_empty env.now env.deliver _ _ (by dsimp only; exact hcs2)]
    rcases notifier_send_enabled_events sd.config env.deliver env.now.ts
        "POWER_FAIL" "[UPS] ALERT: Power Outage Detected"
        sd.debounce_file (by decide) hen with hev | ⟨s2, hev⟩ <;>
      simp [hev, countPF, mk_power_state_rec]


/-- C4: for every cycle in which the computed power status is `OFFLINE`
(whether from unreachable sentinels or a forced simulation) — a steady
cycle whose persisted state is already `POWER_FAIL` sends no power-fail
(or simulation) notification yet rewrites the UPS status file to the
on-battery line and keeps the state at `POWER_FAIL`; the first transition
into `POWER_FAIL` sends exactly one power-fail (or, in simulation,
simulation-mode) notification and clears the client-notification-state
record; and over any whole OFFLINE episode starting at `POWER_FAIL` no
such notification is ever re-sent. -/
theorem claim_C4 :
    (∀ (env : Env) (s : Sys) (pmd : PMem) (sd : Sys) (r : StateRec),
      s.state_file = some r → r.state = "POWER_FAIL" →
      determine_power_status env.now env.reach (load_state s) s =
        ("OFFLINE", pmd, sd) →
      (env.check_scheds = true →
        ∀ q ∈ s.schedules, sched_fires env.now q.2 = false) →
      countPF (run_cycle env s).2 = 0 ∧
      (run_cycle env s).1.ups_file = "ups.status: OB LB" ∧
      (∃ r2, (run_cycle env s).1.state_file = some r2 ∧
        r2.state = "POWER_FAIL")) ∧
    (∀ (env : Env) (s : Sys) (pmd : PMem) (sd : Sys),
      (s.state_file.map (·.state)) ≠ some "POWER_FAIL" →
      (s.state_file.map (·.state)) ≠ some "POWER_RESTORED_SIM" →
      determine_power_status env.now env.reach (load_state s) s =
        ("OFFLINE", pmd, sd) →
      (env.check_scheds = true →
        ∀ q ∈ s.schedules, sched_fires env.now q.2 = false) →
      (if cfg_flag sd.config "POWER_SIMULATION_MODE" "false" then
        notify_enabled sd.config "SIMULATION_MODE"
      else notify_enabled sd.config "POWER_FAIL") = true →
      s.client_status_file = [] →
      countPF (run_cycle env s).2 = 1 ∧
      (run_cycle env s).1.client_notif_file = [] ∧
      ((run_cycle env s).1.state_file.map (·.state)) = some "POWER_FAIL" ∧
      (run_cycle env s).1.ups_file = "ups.status: OB LB") ∧
    (∀ (envs : List Env) (s : Sys) (r : StateRec),
      s.state_file = some r → r.state = "POWER_FAIL" →
      offline_episode envs s = true →
      ∀ evs ∈ (run_cycles envs s).2, countPF evs = 0) := by
  refine ⟨?_, ?_, ?_⟩
  · intro env s pmd sd r h1 h2 hdet hsched
    exact steady_cycle_abs env s pmd sd r h1 h2 hdet hsched
  · intro env s pmd sd h1 h1b hdet hsched hen hcs
    exact trans_cycle_abs env s pmd sd h1 h1b hdet hsched hen hcs
  · intro envs
    induction envs with
    | nil =>
      intro s r h1 h2 hep evs hm
      simp [run_cycles] at hm
    | cons e es ih =>
      intro s r h1 h2 hep evs hm
      rw [offline_episode] at hep
      simp only [Bool.and_eq_true] at hep
      obtain ⟨⟨hc1, hc2⟩, hc3⟩ := hep
      have hst : (determine_power_status e.now e.reach (load_state s) s).1 =
          "OFFLINE" := eq_of_beq hc1
      have hdet : determine_power_status e.now e.reach (load_state s) s =
          ("OFFLINE",
           (determine_power_status e.now e.reach (load_state s) s).2.1,
           (determine_power_status e.now e.reach (load_state s) s).2.2) := by
        rw [← hst]
      have hsched : e.check_scheds = true →
          ∀ q ∈ s.schedules, sched_fires e.now q.2 = false := by
        intro hcs q hq
        rw [Bool.or_eq_true] at hc2
        rcases hc2 with hb | hb
        · rw [hcs] at hb
          exact absurd hb (by decide)
        · have := List.all_eq_true.mp hb q hq
          simpa using this
      have hstep := steady_cycle_abs e s _ _ r h1 h2 hdet hsched
      rw [run_cycles] at hm
      rcases List.mem_cons.mp hm with hev | hev
      · subst hev
        exact hstep.1
      · obtain ⟨r2, hr2, hr2s⟩ := hstep.2.2
        exact ih (run_cycle e s).1 r2 hr2 hr2s hc3 evs hev


/-- Witness for C4: a transition cycle under a forced simulation (flag on,
sentinel reachable, status `OFFLINE`) makes exactly one
simulation-mode/power-fail attempt, clears the notification flags, and
persists `POWER_FAIL`. -/
theorem claim_C4_witness :
    (((none : Option String) ≠ some "POWER_FAIL") ∧
      determine_power_status ⟨"2026-01-01", "10:00", "thursday", 99⟩
        (fun _ => true) (load_state (⟨[("SENTINEL_HOSTS", "10.0.0.1"), ("POWER_SIMULATION_MODE", "true"), ("NOTIFY_SIMULATION_MODE", "true")], [], [], none, [], [], [], "x"⟩ : Sys)) (⟨[("SENTINEL_HOSTS", "10.0.0.1"), ("POWER_SIMULATION_MODE", "true"), ("NOTIFY_SIMULATION_MODE", "true")], [], [], none, [], [], [], "x"⟩ : Sys) = ("OFFLINE", (⟨none, none, false, false, none, []⟩ : PMem), (⟨[("SENTINEL_HOSTS", "10.0.0.1"), ("POWER_SIMULATION_MODE", "true"), ("NOTIFY_SIMULATION_MODE", "true")], [], [], none, [], [], [], "x"⟩ : Sys))) ∧
    (countPF (run_cycle (⟨⟨"2026-01-01", "10:00", "thursday", 99⟩, fun _ => true, fun _ => true, fun _ => true, false⟩ : Env) (⟨[("SENTINEL_HOSTS", "10.0.0.1"), ("POWER_SIMULATION_MODE", "true"), ("NOTIFY_SIMULATION_MODE", "true")], [], [], none, [], [], [], "x"⟩ : Sys)).2 = 1 ∧
     (run_cycle (⟨⟨"2026-01-01", "10:00", "thursday", 99⟩, fun _ => true, fun _ => true, fun _ => true, false⟩ : Env) (⟨[("SENTINEL_HOSTS", "10.0.0.1"), ("POWER_SIMULATION_MODE", "true"), ("NOTIFY_SIMULATION_MODE", "true")], [], [], none, [], [], [], "x"⟩ : Sys)).1.client_notif_file = [] ∧
     ((run_cycle (⟨⟨"2026-01-01", "10:00", "thursday", 99⟩, fun _ => true, fun _ => true, fun _ => true, false⟩ : Env) (⟨[("SENTINEL_HOSTS", "10.0.0.1"), ("POWER_SIMULATION_MODE", "true"), ("NOTIFY_SIMULATION_MODE", "true")], [], [], none, [], [], [], "x"⟩ : Sys)).1.state_file.map (·.state)) =
       some "POWER_FAIL" ∧
     (run_cycle (⟨⟨"2026-01-01", "10:00", "thursday", 99⟩, fun _ => true, fun _ => true, fun _ => true, false⟩ : Env) (⟨[("SENTINEL_HOSTS", "10.0.0.1"), ("POWER_SIMULATION_MODE", "true"), ("NOTIFY_SIMULATION_MODE", "true")], [], [], none, [], [], [], "x"⟩ : Sys)).1.ups_file = "ups.status: OB LB") :=
  ⟨⟨by decide, by decide⟩,
    claim_C4.2.1 (⟨⟨"2026-01-01", "10:00", "thursday", 99⟩, fun _ => true, fun _ => true, fun _ => true, false⟩ : Env) (⟨[("SENTINEL_HOSTS", "10.0.0.1"), ("POWER_SIMULATION_MODE", "true"), ("NOTIFY_SIMULATION_MODE", "true")], [], [], none, [], [], [], "x"⟩ : Sys) (⟨none, none, false, false, none, []⟩ : PMem) (⟨[("SENTINEL_HOSTS", "10.0.0.1"), ("POWER_SIMULATION_MODE", "true"), ("NOTIFY_SIMULATION_MODE", "true")], [], [], none, [], [], [], "x"⟩ : Sys) (by decide) (by decide) (by decide)
      (fun h => absurd h (by decide)) (by decide) rfl⟩


theorem save_step_match (key value : String) (sect : Option String)
    (st : SaveState) (l k0 v0 : String)
    (hic : st.inCorrect = true)
    (hnh : (startsWithChar (pyStrip l) '[' &&
      endsWithChar (pyStrip l) ']') = false)
    (hnc : startsWithChar (pyStrip l) '#' = false)
    (hse : splitEq (pyStrip l) = some (k0, v0))
    (hk : pyStrip k0 = key) :
    save_line_step key value sect st l =
      { st with out := st.out ++ [keyLine (indentOf l) key value],
                keyFound := true } := by
  rw [save_line_step]
  rw [if_neg (by simp [hnh])]
  rw [if_pos (by simp [hic, hnc])]
  rw [hse]
  dsimp only
  rw [hk]
  simp

theorem parse_keep_global (key : String) (l : String)
    (hnk : ((splitEq (pyStrip l)).map (fun pr => pyStrip pr.1)) ≠ some key)
    (Q : ParseState) :
    aget? (parse_config_line Q l).config key = aget? Q.config key := by
  rw [parse_config_line]
  dsimp only
  by_cases h1 : ((pyStrip l == "") || startsWithChar (pyStrip l) '#') = true
  · rw [if_pos h1]
  · rw [if_neg h1]
    by_cases h2 : (startsWithChar (pyStrip l) '[' &&
        endsWithChar (pyStrip l) ']') = true
    · rw [if_pos h2]
      by_cases h3 : startsWithStr (headerName (pyStrip l)) "WAKE_HOST_" = true
      · rw [if_pos h3]
      · rw [if_neg h3]
        by_cases h4 : startsWithStr (headerName (pyStrip l)) "SCHEDULE_" = true
        · rw [if_pos h4]
        · rw [if_neg h4]
    · rw [if_neg h2]
      rcases hse : splitEq (pyStrip l) with _ | ⟨k0, v0⟩
      · simp only [hse]
      · simp only [hse]
        have hk0 : pyStrip k0 ≠ key := by
          intro e
          exact hnk (by simp [hse, e])
        rcases hcur : Q.cur with _ | sec
        · simp only [hcur]
          exact aget_aset_ne Q.config (pyStrip k0) key (cleanValue v0)
            (fun e => hk0 e.symm)
        · simp only [hcur]
          by_cases h5 : startsWithStr sec "WAKE_HOST_" = true
          · rw [if_pos h5]
          · rw [if_neg h5]
            by_cases h6 : startsWithStr sec "SCHEDULE_" = true
            · rw [if_pos h6]
            · rw [if_neg h6]

theorem parse_keep_sec (s key : String) (l : String)
    (hh : (startsWithChar (pyStrip l) '[' &&
      endsWithChar (pyStrip l) ']') = true → headerName (pyStrip l) ≠ s)
    (hnk : ((splitEq (pyStrip l)).map (fun pr => pyStrip pr.1)) ≠ some key)
    (Q : ParseState) :
    aget? ((aget? (parse_config_line Q l).wake_hosts s).getD []) key =
      aget? ((aget? Q.wake_hosts s).getD []) key ∧
    aget? ((aget? (parse_config_line Q l).schedules s).getD []) key =
      aget? ((aget? Q.schedules s).getD []) key := by
  rw [parse_config_line]
  dsimp only
  by_cases h1 : ((pyStrip l == "") || startsWithChar (pyStrip l) '#') = true
  · rw [if_pos h1]
    exact ⟨rfl, rfl⟩
  · rw [if_neg h1]
    by_cases h2 : (startsWithChar (pyStrip l) '[' &&
        endsWithChar (pyStrip l) ']') = true
    · rw [if_pos h2]
      have hsne : s ≠ headerName (pyStrip l) := fun e => hh h2 e.symm
      by_cases h3 : startsWithStr (headerName (pyStrip l)) "WAKE_HOST_" = true
      · rw [if_pos h3]
        dsimp only
        rw [aget_aset_ne Q.wake_hosts (headerName (pyStrip l)) s [] hsne]
        exact ⟨rfl, rfl⟩
      · rw [if_neg h3]
        by_cases h4 : startsWithStr (headerName (pyStrip l)) "SCHEDULE_" = true
        · rw [if_pos h4]
          dsimp only
          rw [aget_aset_ne Q.schedules (headerName (pyStrip l)) s [] hsne]
          exact ⟨rfl, rfl⟩
        · rw [if_neg h4]
          exact ⟨rfl, rfl⟩
    · rw [if_neg h2]
      rcases hse : splitEq (pyStrip l) with _ | ⟨k0, v0⟩
      · simp [hse]
      · simp only [hse]
        have hk0 : key ≠ pyStrip k0 := by
          intro e
          exact hnk (by simp [hse, e.symm])
        rcases hcur : Q.cur with _ | sec
        · simp [hcur]
        · simp only [hcur]
          by_cases h5 : startsWithStr sec "WAKE_HOST_" = true
          · rw [if_pos h5]
            dsimp only
            refine ⟨?_, rfl⟩
            rw [assignIn]
            by_cases h6 : sec = s
            · subst h6
              rw [aget_aset_self]
              simp only [Option.getD_some]
              exact aget_aset_ne _ (pyStrip k0) key (cleanValue v0) hk0
            · rw [aget_aset_ne Q.wake_hosts sec s _ (fun e => h6 e.symm)]
          · rw [if_neg h5]
            by_cases h7 : startsWithStr sec "SCHEDULE_" = true
            · rw [if_pos h7]
              dsimp only
              refine ⟨rfl, ?_⟩
              rw [assignIn]
              by_cases h6 : sec = s
              · subst h6
                rw [aget_aset_self]
                simp only [Option.getD_some]
                exact aget_aset_ne _ (pyStrip k0) key (cleanValue v0) hk0
              · rw [aget_aset_ne Q.schedules sec s _ (fun e => h6 e.symm)]
            · rw [if_neg h7]
              exact ⟨rfl, rfl⟩

theorem parse_keep_global_fold (key : String) :
    ∀ (L : List String),
      (∀ l ∈ L,
        ((splitEq (pyStrip l)).map (fun pr => pyStrip pr.1)) ≠ some key) →
      ∀ Q : ParseState,
        aget? (L.foldl parse_config_line Q).config key =
          aget? Q.config key := by
  intro L
  induction L with
  | nil => intro _ Q; rfl
  | cons l ls ih =>
    intro hnk Q
    rw [List.foldl_cons]
    rw [ih (fun l2 h2 => hnk l2 (List.mem_cons_of_mem l h2))]
    exact parse_keep_global key l (hnk l (List.mem_cons_self l ls)) Q

theorem parse_keep_sec_fold (s key : String) :
    ∀ (L : List String),
      (∀ l ∈ L,
        ((startsWithChar (pyStrip l) '[' &&
          endsWithChar (pyStrip l) ']') = true →
            headerName (pyStrip l) ≠ s) ∧
        ((splitEq (pyStrip l)).map (fun pr => pyStrip pr.1)) ≠ some key) →
      ∀ Q : ParseState,
        (aget? ((aget? (L.foldl parse_config_line Q).wake_hosts s).getD [])
            key =
          aget? ((aget? Q.wake_hosts s).getD []) key) ∧
        (aget? ((aget? (L.foldl parse_config_line Q).schedules s).getD [])
            key =
          aget? ((aget? Q.schedules s).getD []) key) := by
  intro L
  induction L with
  | nil => intro _ Q; exact ⟨rfl, rfl⟩
  | cons l ls ih =>
    intro hc Q
    rw [List.foldl_cons]
    have hi := ih (fun l2 h2 => hc l2 (List.mem_cons_of_mem l h2))
      (parse_config_line Q l)
    have hl := parse_keep_sec s key l (hc l (List.mem_cons_self l ls)).1
      (hc l (List.mem_cons_self l ls)).2 Q
    exact ⟨hi.1.trans hl.1, hi.2.trans hl.2⟩


/-- C8: config round-trip.  For a clean key/value (the writer's
`KEY="VALUE"` line is not a comment and splits at the key's equals sign)
the saved value is recovered by a full load in the target scope and all
other lines are preserved, in both cases of the writer: (1) key absent —
every line is copied verbatim and the key is appended, recoverable
PROVIDED the scope matches where the appended text lands (a named
`WAKE_HOST_*`/`SCHEDULE_*` section, or the global scope of a file whose
final open section is global); (2) key present on a clean line of the
target scope and assigned nowhere else — that line alone is rewritten in
place, keeping its indentation, with every other line preserved verbatim,
and the reload yields the new value. -/
theorem claim_C8 (lines pre post : List String)
    (kLine k0 v0 key value : String) (sect : Option String)
    (hkstrip : pyStrip key = key)
    (hL2 : startsWithChar (keyLine 0 key value) '#' = false)
    (hL3 : splitEq (keyLine 0 key value) = some (key, "\"" ++ value ++ "\""))
    (hclean : cleanValue ("\"" ++ value ++ "\"") = value) :
    ((∀ l ∈ lines,
        ((splitEq (pyStrip l)).map (fun pr => pyStrip pr.1)) ≠ some key) →
      pyStrip (keyLine 0 key value) = keyLine 0 key value →
      ((∃ s, sect = some s ∧ (startsWithStr s "WAKE_HOST_" = true ∨
          startsWithStr s "SCHEDULE_" = true)) ∨
        (sect = none ∧ (read_power_manager_config lines).cur = none)) →
      save_setting_to_config lines key value sect =
        lines ++ (match sect with
          | some s => ["", "[" ++ s ++ "]", keyLine 0 key value]
          | none => [keyLine 0 key value]) ∧
      scope_get (read_power_manager_config
          (save_setting_to_config lines key value sect)) sect key =
        some value) ∧
    (lines = pre ++ kLine :: post →
      (∀ l ∈ pre,
        ((splitEq (pyStrip l)).map (fun pr => pyStrip pr.1)) ≠ some key) →
      (∀ l ∈ post,
        ((splitEq (pyStrip l)).map (fun pr => pyStrip pr.1)) ≠ some key) →
      splitEq (pyStrip kLine) = some (k0, v0) →
      pyStrip k0 = key →
      (startsWithChar (pyStrip kLine) '[' &&
        endsWithChar (pyStrip kLine) ']') = false →
      startsWithChar (pyStrip kLine) '#' = false →
      pyStrip (keyLine (indentOf kLine) key value) = keyLine 0 key value →
      (pre.foldl (save_line_step key value sect)
        { out := [], inCorrect := sect.isNone,
          keyFound := false }).inCorrect = true →
      ((∃ s, sect = some s ∧ (startsWithStr s "WAKE_HOST_" = true ∨
          startsWithStr s "SCHEDULE_" = true) ∧
          (read_power_manager_config pre).cur = some s ∧
          (∀ l ∈ post, (startsWithChar (pyStrip l) '[' &&
            endsWithChar (pyStrip l) ']') = true →
              headerName (pyStrip l) ≠ s)) ∨
        (sect = none ∧ (read_power_manager_config pre).cur = none)) →
      save_setting_to_config lines key value sect =
        pre ++ keyLine (indentOf kLine) key value :: post ∧
      scope_get (read_power_manager_config
          (save_setting_to_config lines key value sect)) sect key =
        some value) := by
  constructor
  · intro hnf hL1 hscope
    rcases hscope with ⟨s, hsec, hws⟩ | ⟨hsec, hcur⟩
    · subst hsec
      have h1 := save_copy key value (some s) lines
        { out := [], inCorrect := false, keyFound := false } hnf
      have hout : save_setting_to_config lines key value (some s) =
          lines ++ ["", "[" ++ s ++ "]", keyLine 0 key value] := by
        rw [save_setting_to_config]
        rw [if_neg (by simp [h1.2])]
        simp only [Option.isNone_some]
        rw [h1.1]
        simp
      refine ⟨hout, ?_⟩
      rw [hout]
      rw [read_power_manager_config, List.foldl_append,
        ← read_power_manager_config]
      rw [List.foldl_cons, List.foldl_cons, List.foldl_cons, List.foldl_nil]
      rw [parse_blank]
      rcases hws with hw | hs
      · rw [parse_header_wake _ s hw]
        rw [parse_keyline_sec _ s key value (keyLine 0 key value) rfl hL1 hL2
          hL3 hkstrip hclean hw]
        rw [scope_get]
        dsimp only
        rw [if_pos hw]
        rw [assignIn, aget_aset_self, aget_aset_self]
        simp [aget?, aset]
      · rw [parse_header_sched _ s hs]
        rw [parse_keyline_sched _ s key value (keyLine 0 key value) rfl hL1 hL2
          hL3 hkstrip hclean hs]
        rw [scope_get]
        dsimp only
        rw [if_neg (by simp [sched_not_wake s hs]), if_pos hs]
        rw [assignIn, aget_aset_self, aget_aset_self]
        simp [aget?, aset]
    · subst hsec
      have h1 := save_copy key value none lines
        { out := [], inCorrect := true, keyFound := false } hnf
      have hout : save_setting_to_config lines key value none =
          lines ++ [keyLine 0 key value] := by
        rw [save_setting_to_config]
        rw [if_neg (by simp [h1.2])]
        simp only [Option.isNone_none]
        rw [h1.1]
        simp
      refine ⟨hout, ?_⟩
      rw [hout]
      rw [read_power_manager_config, List.foldl_append,
        ← read_power_manager_config]
      rw [List.foldl_cons, List.foldl_nil]
      rw [parse_keyline_global _ key value (keyLine 0 key value) hcur hL1 hL2
        hL3 hkstrip hclean]
      rw [scope_get]
      dsimp only
      exact aget_aset_self _ _ _
  · intro hsplit hnfpre hnfpost hse hk0 hnh hnc hL1i hwpre hscope2
    subst hsplit
    rcases hscope2 with ⟨s, hsec, hws, hppre, hph⟩ | ⟨hsec, hppre⟩
    · subst hsec
      simp only [Option.isNone_some] at hwpre
      have hw1 := save_copy key value (some s) pre
        { out := [], inCorrect := false, keyFound := false } hnfpre
      have hstep := save_step_match key value (some s)
        (pre.foldl (save_line_step key value (some s))
          { out := [], inCorrect := false, keyFound := false })
        kLine k0 v0 hwpre hnh hnc hse hk0
      have hw2 := save_copy key value (some s) post
        (save_line_step key value (some s)
          (pre.foldl (save_line_step key value (some s))
            { out := [], inCorrect := false, keyFound := false }) kLine)
        hnfpost
      rw [hstep] at hw2
      have hw1o : (pre.foldl (save_line_step key value (some s))
          { out := [], inCorrect := false, keyFound := false }).out = pre := by
        simpa using hw1.1
      have hout : save_setting_to_config (pre ++ kLine :: post) key value
          (some s) = pre ++ keyLine (indentOf kLine) key value :: post := by
        rw [save_setting_to_config]
        simp only [Option.isNone_some]
        rw [List.foldl_append, List.foldl_cons]
        rw [hstep]
        rw [if_pos hw2.2]
        rw [hw2.1, hw1o]
        simp
      refine ⟨hout, ?_⟩
      rw [hout]
      rw [scope_get]
      rw [read_power_manager_config, List.foldl_append, List.foldl_cons,
        ← read_power_manager_config]
      rcases hws with hw | hsch
      · rw [if_pos hw]
        rw [parse_keyline_sec (read_power_manager_config pre) s key value
          (keyLine (indentOf kLine) key value) hppre hL1i hL2 hL3 hkstrip
          hclean hw]
        have hkeep := parse_keep_sec_fold s key post
          (fun l hl => ⟨hph l hl, hnfpost l hl⟩)
          { read_power_manager_config pre with
            wake_hosts := assignIn
              (read_power_manager_config pre).wake_hosts s key value }
        rw [hkeep.1]
        dsimp only
        rw [assignIn, aget_aset_self]
        simp only [Option.getD_some]
        exact aget_aset_self _ _ _
      · rw [if_neg (by simp [sched_not_wake s hsch]), if_pos hsch]
        rw [parse_keyline_sched (read_power_manager_config pre) s key value
          (keyLine (indentOf kLine) key value) hppre hL1i hL2 hL3 hkstrip
          hclean hsch]
        have hkeep := parse_keep_sec_fold s key post
          (fun l hl => ⟨hph l hl, hnfpost l hl⟩)
          { read_power_manager_config pre with
            schedules := assignIn
              (read_power_manager_config pre).schedules s key value }
        rw [hkeep.2]
        dsimp only
        rw [assignIn, aget_aset_self]
        simp only [Option.getD_some]
        exact aget_aset_self _ _ _
    · subst hsec
      simp only [Option.isNone_none] at hwpre
      have hw1 := save_copy key value none pre
        { out := [], inCorrect := true, keyFound := false } hnfpre
      have hstep := save_step_match key value none
        (pre.foldl (save_line_step key value none)
          { out := [], inCorrect := true, keyFound := false })
        kLine k0 v0 hwpre hnh hnc hse hk0
      have hw2 := save_copy key value none post
        (save_line_step key value none
          (pre.foldl (save_line_step key value none)
            { out := [], inCorrect := true, keyFound := false }) kLine)
        hnfpost
      rw [hstep] at hw2
      have hw1o : (pre.foldl (save_line_step key value none)
          { out := [], inCorrect := true, keyFound := false }).out = pre := by
        simpa using hw1.1
      have hout : save_setting_to_config (pre ++ kLine :: post) key value
          none = pre ++ keyLine (indentOf kLine) key value :: post := by
        rw [save_setting_to_config]
        simp only [Option.isNone_none]
        rw [List.foldl_append, List.foldl_cons]
        rw [hstep]
        rw [if_pos hw2.2]
        rw [hw2.1, hw1o]
        simp
      refine ⟨hout, ?_⟩
      rw [hout]
      rw [scope_get]
      rw [read_power_manager_config, List.foldl_append, List.foldl_cons,
        ← read_power_manager_config]
      rw [parse_keyline_global (read_power_manager_config pre) key value
        (keyLine (indentOf kLine) key value) hppre hL1i hL2 hL3 hkstrip
        hclean]
      rw [parse_keep_global_fold key post hnfpost]
      dsimp only
      exact aget_aset_self _ _ _


/-- C8 witness: the in-place update at a concrete file — the existing
`IP="9"` line inside `[WAKE_HOST_1]` is rewritten to `IP="7"` and the
reload recovers the new value in that section. -/
theorem claim_C8_witness :
    ((pyStrip "IP" = "IP" ∧
      splitEq (keyLine 0 "IP" "7") = some ("IP", "\"7\"")) ∧
     splitEq (pyStrip "IP=\"9\"") = some ("IP", "\"9\"") ∧
     (["[WAKE_HOST_1]", "IP=\"9\""] : List String) = ["[WAKE_HOST_1]"] ++ "IP=\"9\"" :: []) ∧
    (save_setting_to_config ["[WAKE_HOST_1]", "IP=\"9\""] "IP" "7" (some "WAKE_HOST_1") =
       ["[WAKE_HOST_1]"] ++ keyLine (indentOf "IP=\"9\"") "IP" "7" :: [] ∧
     scope_get (read_power_manager_config (save_setting_to_config ["[WAKE_HOST_1]", "IP=\"9\""]
         "IP" "7" (some "WAKE_HOST_1"))) (some "WAKE_HOST_1") "IP" =
       some "7") :=
  ⟨⟨⟨by decide, by decide⟩, by decide, rfl⟩,
    (claim_C8 ["[WAKE_HOST_1]", "IP=\"9\""] ["[WAKE_HOST_1]"] [] "IP=\"9\"" "IP" "\"9\"" "IP" "7" (some "WAKE_HOST_1")
        (by decide) (by decide) (by decide) (by decide)).2
      rfl (by decide) (by decide) (by decide) (by decide) (by decide)
      (by decide) (by decide) (by decide)
      (Or.inl ⟨"WAKE_HOST_1", rfl, Or.inl (by decide), by decide,
        fun l hl => absurd hl (List.not_mem_nil l)⟩)⟩

end UPS
